import Mathlib
/-!
Verification development for the MikrotikScanner repository.
The definitions below are a shallow embedding of the TypeScript sources:
shared/schema (data model), server/storage.ts (MemStorage, whose
getTopologyData / getAsymmetricRoutes are line-identical to the
DatabaseStorage variants), server/mikrotik.ts (MikrotikClient with optional
SSH tunnel), server/scanner.ts (NetworkScanner.scanSubnet) and the scan
route of server/routes (POST /api/scans with its background task).
JavaScript Maps are modelled as association lists in insertion order,
promises are evaluated sequentially, thrown errors become Except values,
and external collaborators (RouterOS connections, the ssh2 session, the
ip-cidr enumerator, Date.now, randomUUID) are parameters of the model.
-/

/-- Model of the JavaScript expression a || d for strings, where both the
empty string and an absent value are falsy. -/
def jsOrStr : Option String → String → String
  | some s, d => if s = "" then d else s
  | none, d => d

/-- Model of the JavaScript expression s || undefined for an optional
string: the empty string collapses to undefined. -/
def jsOrUndef : Option String → Option String
  | some s => if s = "" then none else some s
  | none => none

/-- One row of a device's OSPF neighbor table (shared/schema OSPFNeighbor). -/
structure OSPFNeighbor where
  neighborId : String
  neighborIp : String
  cost : Int
  state : String
  priority : Int
  deadTime : String
  address : String
  interface : String
  deriving Repr, DecidableEq

/-- A discovered device (shared/schema Router; the jsonb neighbor column is
nullable, hence the Option). -/
structure Router where
  id : String
  ip : String
  hostname : Option String
  identity : Option String
  version : Option String
  model : Option String
  status : String
  lastSeen : Nat
  ospfNeighbors : Option (List OSPFNeighbor)
  deriving Repr, DecidableEq

/-- shared/schema TopologyNode. -/
structure TopologyNode where
  id : String
  ip : String
  hostname : Option String
  identity : Option String
  status : String
  deriving Repr, DecidableEq

/-- shared/schema TopologyEdge. -/
structure TopologyEdge where
  id : String
  source : String
  target : String
  cost : Int
  isAsymmetric : Bool
  reverseCost : Int
  deriving Repr, DecidableEq

/-- shared/schema TopologyData. -/
structure TopologyData where
  nodes : List TopologyNode
  edges : List TopologyEdge
  deriving Repr, DecidableEq

/-- shared/schema AsymmetricRoute; severity is the literal string stored by
the code. -/
structure AsymmetricRoute where
  router1 : String
  router2 : String
  router1Ip : String
  router2Ip : String
  cost1to2 : Int
  cost2to1 : Int
  difference : Int
  severity : String
  deriving Repr, DecidableEq

/-- Lookup used throughout storage.ts:
Array.from(this.routers.values()).find(r => r.ip === ip). -/
def findByIp (routers : List Router) (ip : String) : Option Router :=
  routers.find? (fun r => r.ip == ip)

/-- Lexicographic comparison of character lists by code point, the order
the JavaScript default sort applies to strings (code-unit order; identical
on the ASCII device ids this program generates). -/
def charListLt : List Char → List Char → Bool
  | [], [] => false
  | [], _ :: _ => true
  | _ :: _, [] => false
  | a :: as, b :: bs =>
      if a.val.toNat < b.val.toNat then true
      else if b.val.toNat < a.val.toNat then false
      else charListLt as bs

/-- String comparison used by the JavaScript default sort. -/
def jsStrLt (a b : String) : Bool :=
  charListLt a.data b.data

/-- The deterministic pair key [a, b].sort().join("-") of storage.ts: the
two-element sort swaps exactly when the first compares greater. -/
def edgeKey (a b : String) : String :=
  if jsStrLt b a then b ++ "-" ++ a else a ++ "-" ++ b

/-- Value stored in the edgeMap of getTopologyData. -/
structure EdgeSeed where
  source : String
  target : String
  cost : Int
  deriving Repr, DecidableEq

/-- Guard at the top of the per-router loops: if (!router.ospfNeighbors)
return; a null neighbor column contributes nothing. -/
def ospfNeighborsOrEmpty (r : Router) : List OSPFNeighbor :=
  r.ospfNeighbors.getD []

/-- Body of the inner forEach of MemStorage.getTopologyData (storage.ts
lines 159 to 188, identical to DatabaseStorage lines 115 to 141): resolve
the neighbor ip, seed the edge map on first sight of the pair and push one
edge for the current direction. -/
def topoProcessNeighbor (routers : List Router) (router : Router)
    (acc : List TopologyEdge × List (String × EdgeSeed)) (neighbor : OSPFNeighbor) :
    List TopologyEdge × List (String × EdgeSeed) :=
  match findByIp routers neighbor.neighborIp with
  | none => acc
  | some targetRouter =>
      let key := edgeKey router.id targetRouter.id
      let m : List (String × EdgeSeed) :=
        match acc.2.lookup key with
        | some _ => acc.2
        | none => (key, ⟨router.id, targetRouter.id, neighbor.cost⟩) :: acc.2
      match m.lookup key with
      | none => (acc.1, m)
      | some existingEdge =>
          (acc.1 ++ [{ id := router.id ++ "-" ++ targetRouter.id,
                       source := router.id,
                       target := targetRouter.id,
                       cost := neighbor.cost,
                       isAsymmetric := existingEdge.cost != neighbor.cost,
                       reverseCost := existingEdge.cost }], m)

/-- Edge list of MemStorage.getTopologyData: both forEach loops folded with
an initially empty edge list and edge map. -/
def topoEdges (routers : List Router) : List TopologyEdge :=
  (routers.foldl
    (fun acc r => (ospfNeighborsOrEmpty r).foldl (topoProcessNeighbor routers r) acc)
    ([], [])).1

/-- MemStorage.getTopologyData (storage.ts lines 143 to 192). -/
def getTopologyData (routers : List Router) : TopologyData :=
  { nodes := routers.map fun r =>
      { id := r.id, ip := r.ip, hostname := r.hostname,
        identity := r.identity, status := r.status },
    edges := topoEdges routers }

/-- Severity classification of getAsymmetricRoutes:
difference > 50 ? "high" : difference > 20 ? "medium" : "low". -/
def severityOf (difference : Int) : String :=
  if difference > 50 then "high" else if difference > 20 then "medium" else "low"

/-- Display name router.identity || router.hostname || router.ip. -/
def displayName (r : Router) : String :=
  jsOrStr r.identity (jsOrStr r.hostname r.ip)

/-- Body of the inner forEach of MemStorage.getAsymmetricRoutes (storage.ts
lines 202 to 233, identical to DatabaseStorage lines 155 to 184). The
accumulator carries the emitted routes and the checkedPairs set. -/
def asymProcessNeighbor (routers : List Router) (router1 : Router)
    (acc : List AsymmetricRoute × List String) (neighbor1 : OSPFNeighbor) :
    List AsymmetricRoute × List String :=
  match findByIp routers neighbor1.neighborIp with
  | none => acc
  | some router2 =>
    match router2.ospfNeighbors with
    | none => acc
    | some ns2 =>
      let pairKey := edgeKey router1.id router2.id
      if acc.2.contains pairKey then acc
      else
        let checked := pairKey :: acc.2
        match ns2.find? (fun n => n.neighborIp == router1.ip) with
        | none => (acc.1, checked)
        | some neighbor2 =>
          if neighbor1.cost = neighbor2.cost then (acc.1, checked)
          else
            let difference := |neighbor1.cost - neighbor2.cost|
            (acc.1 ++ [{ router1 := displayName router1,
                         router2 := displayName router2,
                         router1Ip := router1.ip,
                         router2Ip := router2.ip,
                         cost1to2 := neighbor1.cost,
                         cost2to1 := neighbor2.cost,
                         difference := difference,
                         severity := severityOf difference }], checked)

/-- MemStorage.getAsymmetricRoutes (storage.ts lines 194 to 237). -/
def getAsymmetricRoutes (routers : List Router) : List AsymmetricRoute :=
  (routers.foldl
    (fun acc r1 => (ospfNeighborsOrEmpty r1).foldl (asymProcessNeighbor routers r1) acc)
    ([], [])).1

/-- Projection of a topology edge to its direction and forward cost; the
fields that do not depend on the edge-map state. -/
def edgeDir (e : TopologyEdge) : String × String × Int :=
  (e.source, e.target, e.cost)

/-- Statement-side description: one directed entry per neighbor record of
any device whose neighborIp resolves to a known device. -/
def directedNeighborPairs (routers : List Router) : List (String × String × Int) :=
  routers.flatMap fun r =>
    (ospfNeighborsOrEmpty r).filterMap fun n =>
      (findByIp routers n.neighborIp).map fun t => (r.id, t.id, n.cost)

/-- Demo device A: lists B as neighbor at cost 10 (the end-to-end scenario
of the spec). -/
def demoNeighborAB : OSPFNeighbor :=
  ⟨"10.0.0.2", "10.0.0.2", 10, "Full", 1, "00:00:39", "10.0.0.2", "ether1"⟩

/-- Demo device B: lists A as neighbor at cost 35. -/
def demoNeighborBA : OSPFNeighbor :=
  ⟨"10.0.0.1", "10.0.0.1", 35, "Full", 1, "00:00:38", "10.0.0.1", "ether1"⟩

/-- Demo router A at 10.0.0.1. -/
def demoRouterA : Router :=
  ⟨"A1", "10.0.0.1", some "router-a", some "Router A", some "7.11", some "CCR",
   "online", 0, some [demoNeighborAB]⟩

/-- Demo router B at 10.0.0.2. -/
def demoRouterB : Router :=
  ⟨"B1", "10.0.0.2", some "router-b", some "Router B", some "7.11", some "CCR",
   "online", 0, some [demoNeighborBA]⟩

/-- Variant of router B with an empty neighbor table: it does not list A. -/
def oneSidedB : Router :=
  ⟨"B1", "10.0.0.2", none, none, none, none, "online", 0, some []⟩

/-- Error values thrown by MikrotikClient (server/mikrotik.ts): the
distinguished SSHTunnelError subclass versus every other thrown error. -/
inductive MtError where
  | sshTunnelError (msg : String)
  | otherError (msg : String)
  deriving Repr, DecidableEq

/-- One row returned by /system/identity/print. -/
structure IdentityRow where
  name : Option String
  deriving Repr, DecidableEq

/-- One row returned by /system/resource/print. -/
structure ResourceRow where
  version : Option String
  boardName : Option String
  deriving Repr, DecidableEq

/-- One raw row returned by /routing/ospf/neighbor/print. Numeric columns
arrive as decimal strings and go through parseInt(x || "0", 10); they are
modelled as already-parsed optional integers, with none meaning the absent
or empty column that defaults to 0. -/
structure OspfRow where
  routerId : Option String
  address : Option String
  cost : Option Int
  state : Option String
  priority : Option Int
  deadTime : Option String
  interface : Option String
  deriving Repr, DecidableEq

/-- The field mapping of MikrotikClient.getOSPFNeighbors (mikrotik.ts lines
88 to 97). -/
def mapOspfRow (row : OspfRow) : OSPFNeighbor :=
  { neighborId := jsOrStr row.routerId "",
    neighborIp := jsOrStr row.address "",
    cost := row.cost.getD 0,
    state := jsOrStr row.state "unknown",
    priority := row.priority.getD 0,
    deadTime := jsOrStr row.deadTime "",
    address := jsOrStr row.address "",
    interface := jsOrStr row.interface "" }

/-- Behavior of an established RouterOSAPI connection: the outcome of each
conn.write query (a query that rejects does so with an ordinary error
message, never an SSHTunnelError, which only connect constructs). -/
structure Conn where
  identityRows : Except String (List IdentityRow)
  resourceRows : Except String (List ResourceRow)
  ospfRows : Except String (List OspfRow)

/-- Environment of one MikrotikClient: whether an SSH tunnel was supplied
to the constructor, the tunnel's getStatus().connected flag, the outcome of
SSHTunnelManager.forwardConnection per target host, and the outcome of
RouterOSAPI connect per host (the Bool marks a tunneled socket). -/
structure MtEnv where
  tunnelConfigured : Bool
  tunnelConnected : Bool
  forwardResult : String → Except String Unit
  connectResult : String → Bool → Except String Conn

namespace MikrotikClient

/-- MikrotikClient.connect (mikrotik.ts lines 24 to 48): the tunnel is used
only when it is configured AND its status reports connected; a forward
failure is wrapped in SSHTunnelError; otherwise a direct RouterOSAPI
connection is attempted and its failure is an ordinary error. -/
def connect (env : MtEnv) (host : String) : Except MtError Conn :=
  if env.tunnelConfigured && env.tunnelConnected then
    match env.forwardResult host with
    | .error m =>
        .error (.sshTunnelError ("SSH tunnel forward failed to " ++ host ++ ": " ++ m))
    | .ok _ =>
        match env.connectResult host true with
        | .error m => .error (.otherError m)
        | .ok c => .ok c
  else
    match env.connectResult host false with
    | .error m => .error (.otherError m)
    | .ok c => .ok c

/-- Result shape of MikrotikClient.getSystemInfo. -/
structure SystemInfo where
  identity : Option String
  version : Option String
  model : Option String
  deriving Repr, DecidableEq

/-- MikrotikClient.getSystemInfo (mikrotik.ts lines 50 to 79): SSHTunnelError
is rethrown, every other failure yields the empty object. -/
def getSystemInfo (env : MtEnv) (host : String) : Except MtError SystemInfo :=
  match connect env host with
  | .error (.sshTunnelError m) => .error (.sshTunnelError m)
  | .error (.otherError _) => .ok ⟨none, none, none⟩
  | .ok conn =>
    match conn.identityRows with
    | .error _ => .ok ⟨none, none, none⟩
    | .ok idRows =>
      match conn.resourceRows with
      | .error _ => .ok ⟨none, none, none⟩
      | .ok resRows =>
        .ok { identity := jsOrUndef (idRows.head?.bind IdentityRow.name),
              version := jsOrUndef (resRows.head?.bind ResourceRow.version),
              model := jsOrUndef (resRows.head?.bind ResourceRow.boardName) }

/-- MikrotikClient.getOSPFNeighbors (mikrotik.ts lines 81 to 110):
SSHTunnelError is rethrown, every other failure yields the empty list. -/
def getOSPFNeighbors (env : MtEnv) (host : String) : Except MtError (List OSPFNeighbor) :=
  match connect env host with
  | .error (.sshTunnelError m) => .error (.sshTunnelError m)
  | .error (.otherError _) => .ok []
  | .ok conn =>
    match conn.ospfRows with
    | .error _ => .ok []
    | .ok rows => .ok (rows.map mapOspfRow)

/-- MikrotikClient.testConnection (mikrotik.ts lines 112 to 132):
SSHTunnelError is rethrown, every other failure returns false. -/
def testConnection (env : MtEnv) (host : String) : Except MtError Bool :=
  match connect env host with
  | .error (.sshTunnelError m) => .error (.sshTunnelError m)
  | .error (.otherError _) => .ok false
  | .ok conn =>
    match conn.identityRows with
    | .error _ => .ok false
    | .ok _ => .ok true

end MikrotikClient

/-- Environment with a configured tunnel whose session is not connected:
getStatus().connected is false and a direct RouterOS connection fails with
an ordinary refusal. -/
def tunnelDownEnv : MtEnv :=
  { tunnelConfigured := true, tunnelConnected := false,
    forwardResult := fun _ => .error "SSH tunnel not connected",
    connectResult := fun _ _ => .error "connect ECONNREFUSED" }

/-- Environment with a configured, connected tunnel whose forward to any
host fails. -/
def fwdFailEnv : MtEnv :=
  { tunnelConfigured := true, tunnelConnected := true,
    forwardResult := fun _ => .error "channel open failure",
    connectResult := fun _ _ => .error "unreachable" }

/-- Environment with no tunnel at all and an unreachable host. -/
def offlineEnv : MtEnv :=
  { tunnelConfigured := false, tunnelConnected := false,
    forwardResult := fun _ => .ok (),
    connectResult := fun _ _ => .error "connect ETIMEDOUT" }

/-- Fields accepted by MemStorage.createRouter (InsertRouter of
shared/schema). -/
structure InsertRouter where
  ip : String
  hostname : Option String
  identity : Option String
  version : Option String
  model : Option String
  status : Option String
  ospfNeighbors : Option (List OSPFNeighbor)
  deriving Repr, DecidableEq

/-- Result snapshot stored on a completed scan (shared/schema ScanResults). -/
structure ScanResults where
  routers : List String
  asymmetricRoutes : List AsymmetricRoute
  topologyData : TopologyData
  deriving Repr, DecidableEq

/-- One discovery run (shared/schema Scan). -/
structure Scan where
  id : String
  subnet : String
  status : String
  startedAt : Nat
  completedAt : Option Nat
  routersFound : Nat
  asymmetriesFound : Nat
  results : Option ScanResults
  deriving Repr, DecidableEq

/-- Fields accepted by createScan (insertScanSchema: subnet and status). -/
structure InsertScan where
  subnet : String
  status : String
  deriving Repr, DecidableEq

/-- The two MemStorage maps in insertion order plus a counter that models
the fresh ids randomUUID hands out. -/
structure StorageState where
  routers : List Router
  scans : List Scan
  nextId : Nat
  deriving Repr, DecidableEq

/-- Fresh id supplied by randomUUID, modelled as an injective function of a
counter (the implementation relies on the ids being pairwise distinct). -/
def freshId (n : Nat) : String :=
  String.mk ('u' :: 'i' :: 'd' :: '-' :: List.replicate n 'x')

/-- MemStorage.getRouterByIp (storage.ts lines 50 to 52). -/
def getRouterByIp (st : StorageState) (ip : String) : Option Router :=
  findByIp st.routers ip

/-- MemStorage.createRouter (storage.ts lines 58 to 69); now models the
Date the implementation reads from the clock. -/
def createRouter (st : StorageState) (now : Nat) (ins : InsertRouter) :
    Router × StorageState :=
  let router : Router :=
    { id := freshId st.nextId,
      ip := ins.ip,
      hostname := ins.hostname,
      identity := ins.identity,
      version := ins.version,
      model := ins.model,
      status := jsOrStr ins.status "unknown",
      lastSeen := now,
      ospfNeighbors := some (ins.ospfNeighbors.getD []) }
  (router, { st with routers := st.routers ++ [router], nextId := st.nextId + 1 })

/-- The update object the scanner passes to updateRouter: every key is
present in the object literal, so the object spread in updateRouter
overwrites exactly these fields (an undefined identity/version/model still
overwrites). -/
structure ScanUpdate where
  status : String
  identity : Option String
  version : Option String
  model : Option String
  ospfNeighbors : List OSPFNeighbor
  lastSeen : Nat
  deriving Repr, DecidableEq

/-- The spread set acting on one router record. -/
def applyScanUpdate (u : ScanUpdate) (r : Router) : Router :=
  { r with status := u.status, identity := u.identity, version := u.version,
           model := u.model, ospfNeighbors := some u.ospfNeighbors,
           lastSeen := u.lastSeen }

/-- MemStorage.updateRouter (storage.ts lines 71 to 78) specialised to the
scanner's update object: get by id, spread, set back under the same key. -/
def updateRouterScan (st : StorageState) (id : String) (u : ScanUpdate) :
    Option Router × StorageState :=
  match st.routers.find? (fun r => r.id == id) with
  | none => (none, st)
  | some r =>
      let updated := applyScanUpdate u r
      (some updated,
       { st with routers := st.routers.map (fun x => if x.id == id then updated else x) })

/-- MemStorage.createScan (storage.ts lines 99 to 112). -/
def createScan (st : StorageState) (now : Nat) (ins : InsertScan) :
    Scan × StorageState :=
  let scan : Scan :=
    { id := freshId st.nextId,
      subnet := ins.subnet,
      status := ins.status,
      startedAt := now,
      completedAt := none,
      routersFound := 0,
      asymmetriesFound := 0,
      results := none }
  (scan, { st with scans := st.scans ++ [scan], nextId := st.nextId + 1 })

/-- MemStorage.updateScan (storage.ts lines 114 to 121): spread the given
field overwrites over the entry stored under the id. Each call site passes
the overwrite function spelled out from its update object literal. -/
def updateScan (st : StorageState) (id : String) (f : Scan → Scan) : StorageState :=
  { st with scans := st.scans.map (fun s => if s.id == id then f s else s) }

/-- Status of a stored scan record. -/
def scanStatus (st : StorageState) (id : String) : Option String :=
  (st.scans.find? (fun s => s.id == id)).map Scan.status

/-- One progress callback payload of scanner.ts (the asymmetriesFound field
appears only on the final completed event the route handler writes). -/
structure ScanProgress where
  progress : Nat
  status : String
  routersFound : Nat
  currentIp : Option String
  error : Option String
  asymmetriesFound : Option Nat
  deriving Repr, DecidableEq

/-- Errors thrown out of NetworkScanner.scanSubnet: the invalid-CIDR throw
of the ip-cidr constructor, the subnet-size guard, or an error escaping the
MikrotikClient calls. -/
inductive ScanError where
  | invalidSubnet (msg : String)
  | subnetTooLarge (total : Nat)
  | clientError (e : MtError)
  deriving Repr, DecidableEq

/-- The message carried by a scan error (error.message in the catch
blocks). -/
def ScanError.message : ScanError → String
  | .invalidSubnet m => m
  | .subnetTooLarge total =>
      "Subnet too large: " ++ Nat.repr total ++
      " IPs. Please use a subnet with /22 or smaller (max 1024 IPs). " ++
      "For 10.0.0.0/8 networks, scan specific subnets like 10.0.1.0/24 instead."
  | .clientError (.sshTunnelError m) => m
  | .clientError (.otherError m) => m

/-- The for loop of NetworkScanner.scanSubnet (scanner.ts lines 39 to 83):
per address emit a scanning progress event, probe, and on success fetch
info and neighbors and upsert by ip; any thrown error stops the loop and
carries the state and events produced so far. progress is
Math.floor(((i+1)/totalIps)*100); the float division is modelled exactly by
natural floor division since the claims never inspect intermediate
percentages. -/
def scanIps (env : MtEnv) (now : Nat) (total : Nat) :
    List String → Nat → StorageState → List Router → List ScanProgress →
    StorageState × List ScanProgress × Except ScanError (List Router)
  | [], _, st, found, evs => (st, evs, .ok found)
  | ip :: rest, i, st, found, evs =>
    let evs := evs ++ [⟨((i + 1) * 100) / total, "scanning", found.length, some ip, none, none⟩]
    match MikrotikClient.testConnection env ip with
    | .error e => (st, evs, .error (.clientError e))
    | .ok false => scanIps env now total rest (i + 1) st found evs
    | .ok true =>
      match MikrotikClient.getSystemInfo env ip with
      | .error e => (st, evs, .error (.clientError e))
      | .ok info =>
        match MikrotikClient.getOSPFNeighbors env ip with
        | .error e => (st, evs, .error (.clientError e))
        | .ok neighbors =>
          match getRouterByIp st ip with
          | some existingRouter =>
            let res := updateRouterScan st existingRouter.id
              ⟨"online", info.identity, info.version, info.model, neighbors, now⟩
            match res.1 with
            | some updated => scanIps env now total rest (i + 1) res.2 (found ++ [updated]) evs
            | none => scanIps env now total rest (i + 1) res.2 found evs
          | none =>
            let res := createRouter st now
              ⟨ip, info.identity, info.identity, info.version, info.model,
               some "online", some neighbors⟩
            scanIps env now total rest (i + 1) res.2 (found ++ [res.1]) evs

/-- NetworkScanner.scanSubnet (scanner.ts lines 22 to 105). The ip-cidr
enumeration of the subnet string is an external collaborator and enters as
an Except value (its constructor throw or its toArray result). The
try/catch emits the terminal error event with progress 0 and routersFound 0
and rethrows. -/
def scanSubnet (env : MtEnv) (now : Nat)
    (enumResult : Except String (List String)) (st : StorageState) :
    StorageState × List ScanProgress × Except ScanError (List Router) :=
  match enumResult with
  | .error m =>
      (st, [⟨0, "error", 0, none, some (ScanError.invalidSubnet m).message, none⟩],
       .error (.invalidSubnet m))
  | .ok ips =>
    let totalIps := ips.length
    if totalIps > 1024 then
      (st, [⟨0, "error", 0, none, some (ScanError.subnetTooLarge totalIps).message, none⟩],
       .error (.subnetTooLarge totalIps))
    else
      match scanIps env now totalIps ips 0 st [] [] with
      | (st', evs, .ok found) =>
          (st', evs ++ [⟨100, "completed", found.length, none, none, none⟩], .ok found)
      | (st', evs, .error e) =>
          (st', evs ++ [⟨0, "error", 0, none, some e.message, none⟩], .error e)

/-- Statement-side description of the scanning progress events produced
while a run of consecutive addresses probes offline: one event per address
with the code's floor percentage and a constant found count. -/
def specOfflineEvents (total foundCount : Nat) : Nat → List String → List ScanProgress
  | _, [] => []
  | i, ip :: rest =>
      ⟨((i + 1) * 100) / total, "scanning", foundCount, some ip, none, none⟩
        :: specOfflineEvents total foundCount (i + 1) rest

/-- The background task of POST /api/scans (routes lines 181 to 240): mark
the job scanning, run the scan, then either persist the completed snapshot
and push a final completed event, or mark the job error and push the final
error event. -/
def runScanBackground (env : MtEnv) (now : Nat)
    (enumResult : Except String (List String)) (st : StorageState) (scanId : String) :
    StorageState × List ScanProgress :=
  let st1 := updateScan st scanId (fun s => { s with status := "scanning" })
  match scanSubnet env now enumResult st1 with
  | (st2, evs, .ok found) =>
    let asymmetricRoutes := getAsymmetricRoutes st2.routers
    let topologyData := getTopologyData st2.routers
    let st3 := updateScan st2 scanId (fun s =>
      { s with status := "completed", completedAt := some now,
               routersFound := found.length,
               asymmetriesFound := asymmetricRoutes.length,
               results := some ⟨found.map Router.id, asymmetricRoutes, topologyData⟩ })
    (st3, evs ++ [⟨100, "completed", found.length, none, none,
                   some asymmetricRoutes.length⟩])
  | (st2, evs, .error e) =>
    let st3 := updateScan st2 scanId (fun s =>
      { s with status := "error", completedAt := some now })
    (st3, evs ++ [⟨0, "error", 0, none, some e.message, none⟩])

/-- Splitting a character list at a separator, the structure the anchored
subnet regex inspects. -/
def splitOnChar (sep : Char) (cs : List Char) : List (List Char) :=
  cs.foldr
    (fun c acc =>
      match acc with
      | [] => [[c]]
      | g :: gs => if c = sep then [] :: g :: gs else (c :: g) :: gs)
    [[]]

/-- A digit group of bounded width, one \d{lo,hi} atom of the regex. -/
def digitsChunk (lo hi : Nat) (g : List Char) : Bool :=
  decide (lo ≤ g.length) && decide (g.length ≤ hi) && g.all Char.isDigit

/-- The zod refinement of insertScanSchema: the subnet must match the
anchored pattern of four 1-to-3-digit groups joined by dots, a slash and a
1-to-2-digit prefix. -/
def subnetRegexValid (s : String) : Bool :=
  match splitOnChar '/' s.data with
  | [ipPart, prefixPart] =>
    (match splitOnChar '.' ipPart with
     | [a, b, c, d] =>
         digitsChunk 1 3 a && digitsChunk 1 3 b && digitsChunk 1 3 c && digitsChunk 1 3 d
     | _ => false) && digitsChunk 1 2 prefixPart
  | _ => false

/-- The POST /api/scans handler (routes lines 169 to 247): a body failing
the schema is rejected with 400 before any record exists (the none result);
otherwise the ScanJob is created first and the background task then runs to
completion. -/
def postScanHandler (env : MtEnv) (now : Nat)
    (enum : String → Except String (List String)) (st : StorageState)
    (body : InsertScan) :
    StorageState × List ScanProgress × Option Scan :=
  if subnetRegexValid body.subnet then
    let created := createScan st now body
    let task := runScanBackground env now (enum body.subnet) created.2 created.1.id
    (task.1, task.2, some created.1)
  else
    (st, [], none)

/-- A sequence of scan invocations threaded through the store. -/
def scanSequence (reqs : List (MtEnv × Nat × Except String (List String)))
    (st : StorageState) : StorageState :=
  reqs.foldl (fun s req => (scanSubnet req.1 req.2.1 req.2.2 s).1) st

/-- Well-formedness of the router store: unique ids, unique ips, and no
stored id collides with an id the counter has yet to hand out. -/
def storeWF (st : StorageState) : Prop :=
  (st.routers.map Router.id).Nodup
  ∧ (st.routers.map Router.ip).Nodup
  ∧ ∀ r ∈ st.routers, ∀ k, st.nextId ≤ k → r.id ≠ freshId k

/-- Environment whose tunnel forwards fail only for host 10.0.0.2 and whose
direct connections are refused: 10.0.0.1 probes offline, 10.0.0.2 raises
the fatal tunnel error. -/
def mixedEnv : MtEnv :=
  { tunnelConfigured := true, tunnelConnected := true,
    forwardResult := fun h => if h = "10.0.0.2" then .error "channel open failure" else .ok (),
    connectResult := fun _ _ => .error "connect ECONNREFUSED" }

/-- A pending scan record used in concrete runs. -/
def wScan : Scan :=
  ⟨"s1", "10.0.0.0/30", "pending", 0, none, 0, 0, none⟩

/-- A store holding only that pending scan record. -/
def wSt : StorageState :=
  ⟨[], [wScan], 0⟩

/-- A RouterOS connection whose three queries all succeed. -/
def okConn : Conn :=
  ⟨.ok [⟨some "router-one"⟩], .ok [⟨some "7.11", some "CCR"⟩], .ok []⟩

/-- Environment where every connection succeeds except that the tunnel
forward to 10.0.0.2 fails fatally. -/
def upEnv : MtEnv :=
  { tunnelConfigured := true, tunnelConnected := true,
    forwardResult := fun h => if h = "10.0.0.2" then .error "channel open failure" else .ok (),
    connectResult := fun _ _ => .ok okConn }

/-- A device record previously created for ip 10.0.0.1 under the first
generated id. -/
def wRouter : Router :=
  ⟨"uid-", "10.0.0.1", none, none, none, none, "unknown", 0, none⟩

/-- A store already holding that device, with the id counter past it. -/
def wSt2 : StorageState :=
  ⟨[wRouter], [], 1⟩

theorem charListLt_asymm : ∀ {x y : List Char},
    charListLt x y = true → charListLt y x = false := by
  intro x
  induction x with
  | nil =>
    intro y h
    cases y with
    | nil => simp [charListLt] at h
    | cons b bs => rfl
  | cons a as ih =>
    intro y h
    cases y with
    | nil => simp [charListLt] at h
    | cons b bs =>
      simp only [charListLt] at h ⊢
      by_cases h1 : a.val.toNat < b.val.toNat
      · have h2 : ¬ b.val.toNat < a.val.toNat := by omega
        simp [h1, h2]
      · by_cases h2 : b.val.toNat < a.val.toNat
        · simp [h1, h2] at h
        · simp only [h1, h2, if_false] at h ⊢
          exact ih h

theorem charListLt_eq_of_not_lt : ∀ {x y : List Char},
    charListLt x y = false → charListLt y x = false → x = y := by
  intro x
  induction x with
  | nil =>
    intro y h1 _
    cases y with
    | nil => rfl
    | cons b bs => simp [charListLt] at h1
  | cons a as ih =>
    intro y h1 h2
    cases y with
    | nil => simp [charListLt] at h2
    | cons b bs =>
      simp only [charListLt] at h1 h2
      by_cases hab : a.val.toNat < b.val.toNat
      · simp [hab] at h1
      · by_cases hba : b.val.toNat < a.val.toNat
        · simp [hab, hba] at h2
        · have hval : a.val = b.val := UInt32.toNat.inj (by omega)
          have hc : a = b := Char.eq_of_val_eq hval
          simp only [hab, hba, if_false] at h1 h2
          rw [hc, ih h1 h2]

theorem jsStrLt_eq_of_not_lt {a b : String}
    (h1 : jsStrLt a b = false) (h2 : jsStrLt b a = false) : a = b := by
  have hd : a.data = b.data := charListLt_eq_of_not_lt h1 h2
  cases a; cases b; simp_all

theorem edgeKey_comm (a b : String) : edgeKey a b = edgeKey b a := by
  unfold edgeKey
  by_cases h1 : jsStrLt b a = true
  · have h2 : jsStrLt a b = false := charListLt_asymm h1
    simp [h1, h2]
  · have h1' : jsStrLt b a = false := by simpa using h1
    by_cases h2 : jsStrLt a b = true
    · simp [h1', h2]
    · have h2' : jsStrLt a b = false := by simpa using h2
      have : a = b := jsStrLt_eq_of_not_lt h2' h1'
      simp [this]

theorem find?_eq_head?_filter {α : Type} (p : α → Bool) (l : List α) :
    l.find? p = (l.filter p).head? := by
  induction l with
  | nil => rfl
  | cons a l ih =>
    by_cases h : p a
    · rw [List.find?_cons_of_pos _ h, List.filter_cons_of_pos h]; rfl
    · rw [List.find?_cons_of_neg _ h, List.filter_cons_of_neg h, ih]

theorem length_filter_le_one_of_nodup_map {α β : Type} [BEq β] [LawfulBEq β]
    (f : α → β) (c : β) : ∀ (l : List α), (l.map f).Nodup →
    (l.filter (fun x => f x == c)).length ≤ 1 := by
  intro l
  induction l with
  | nil => simp
  | cons a l ih =>
    intro h
    simp only [List.map_cons, List.nodup_cons] at h
    obtain ⟨hna, hnd⟩ := h
    by_cases hfa : (f a == c) = true
    · have hnil : l.filter (fun x => f x == c) = [] := by
        apply List.filter_eq_nil_iff.mpr
        intro x hx hfx
        have hxc : f x = c := by simpa using hfx
        have hac : f a = c := by simpa using hfa
        exact hna (by rw [hac, ← hxc]; exact List.mem_map_of_mem f hx)
      simp [List.filter_cons, hfa, hnil]
    · have hfa' : (f a == c) = false := by simpa using hfa
      simp only [List.filter_cons, hfa', cond_false]
      exact ih hnd

theorem perm_eq_of_length_le_one {α : Type} {l l' : List α}
    (h : l.Perm l') (hl : l.length ≤ 1) : l = l' := by
  match l, hl with
  | [], _ => exact h.nil_eq
  | [a], _ => exact (List.perm_singleton.mp h.symm).symm

theorem findByIp_perm {l l' : List Router} (h : l.Perm l')
    (hnd : (l.map Router.ip).Nodup) (ip : String) :
    findByIp l ip = findByIp l' ip := by
  unfold findByIp
  rw [find?_eq_head?_filter, find?_eq_head?_filter]
  have hp := h.filter (fun r => r.ip == ip)
  have h1 : (l.filter (fun r => r.ip == ip)).length ≤ 1 :=
    length_filter_le_one_of_nodup_map Router.ip ip l hnd
  rw [perm_eq_of_length_le_one hp h1]

theorem topo_inner_proj (routers : List Router) (r : Router) :
    ∀ (ns : List OSPFNeighbor) (acc : List TopologyEdge × List (String × EdgeSeed)),
    ((ns.foldl (topoProcessNeighbor routers r) acc).1).map edgeDir
      = acc.1.map edgeDir
        ++ ns.filterMap
            (fun n => (findByIp routers n.neighborIp).map (fun t => (r.id, t.id, n.cost))) := by
  intro ns
  induction ns with
  | nil => simp
  | cons n ns ih =>
    intro acc
    simp only [List.foldl_cons, List.filterMap_cons]
    cases hfind : findByIp routers n.neighborIp with
    | none =>
      have hstep : topoProcessNeighbor routers r acc n = acc := by
        unfold topoProcessNeighbor
        rw [hfind]
      rw [hstep, ih]
      simp
    | some t =>
      have hstep : ∃ m, topoProcessNeighbor routers r acc n
          = (acc.1 ++ [{ id := r.id ++ "-" ++ t.id, source := r.id, target := t.id,
                         cost := n.cost,
                         isAsymmetric :=
                           (match List.lookup (edgeKey r.id t.id) acc.2 with
                            | some e => e
                            | none => ⟨r.id, t.id, n.cost⟩ : EdgeSeed).cost != n.cost,
                         reverseCost :=
                           (match List.lookup (edgeKey r.id t.id) acc.2 with
                            | some e => e
                            | none => ⟨r.id, t.id, n.cost⟩ : EdgeSeed).cost }], m) := by
        unfold topoProcessNeighbor
        rw [hfind]
        cases hl : List.lookup (edgeKey r.id t.id) acc.2 with
        | none =>
          refine ⟨(edgeKey r.id t.id, ⟨r.id, t.id, n.cost⟩) :: acc.2, ?_⟩
          simp [hl, List.lookup]
        | some e =>
          refine ⟨acc.2, ?_⟩
          simp [hl]
      obtain ⟨m, hm⟩ := hstep
      rw [hm, ih]
      simp [List.map_append, edgeDir]

theorem topo_outer_proj (routers : List Router) :
    ∀ (rs : List Router) (acc : List TopologyEdge × List (String × EdgeSeed)),
    ((rs.foldl
        (fun a r => (ospfNeighborsOrEmpty r).foldl (topoProcessNeighbor routers r) a)
        acc).1).map edgeDir
      = acc.1.map edgeDir
        ++ rs.flatMap (fun r => (ospfNeighborsOrEmpty r).filterMap
            (fun n => (findByIp routers n.neighborIp).map (fun t => (r.id, t.id, n.cost)))) := by
  intro rs
  induction rs with
  | nil => simp
  | cons r rs ih =>
    intro acc
    simp only [List.foldl_cons, List.flatMap_cons]
    rw [ih, topo_inner_proj]
    simp [List.append_assoc]

theorem topoEdges_proj (routers : List Router) :
    (topoEdges routers).map edgeDir = directedNeighborPairs routers := by
  unfold topoEdges directedNeighborPairs
  rw [topo_outer_proj]
  simp

/-- Claim C1 is false on the code: getTopologyData pushes an edge for every
directional neighbor record that resolves to a known device. Here B never
lists A as a neighbor, yet the device set still yields an edge; and for a
bidirectional pair with unequal costs the emitted edge set depends on the
iteration order (the reverseCost and isAsymmetric fields differ). -/
theorem getTopologyData_one_sided_edge :
    ((getTopologyData [demoRouterA, oneSidedB]).edges
        = [{ id := "A1-B1", source := "A1", target := "B1", cost := 10,
             isAsymmetric := false, reverseCost := 10 }]
      ∧ (∀ n ∈ ospfNeighborsOrEmpty oneSidedB, n.neighborIp ≠ demoRouterA.ip))
    ∧ ¬ ((getTopologyData [demoRouterA, demoRouterB]).edges).Perm
        ((getTopologyData [demoRouterB, demoRouterA]).edges) := by
  refine ⟨⟨?_, ?_⟩, ?_⟩
  · decide
  · decide
  · decide

/-- C1 (amended): the edge list of getTopologyData, projected to source,
target and forward cost, consists of exactly one entry per directional
neighbor record whose neighborIp resolves to a known device — no reverse
entry is required — and that projection is order independent (up to
permutation) whenever device ips are unique; only the reverseCost and
isAsymmetric fields depend on iteration order. -/
theorem getTopologyData_edges_characterization :
    ∀ (routers routers' : List Router),
      (getTopologyData routers).edges.map edgeDir = directedNeighborPairs routers
      ∧ ((routers.map Router.ip).Nodup → routers.Perm routers' →
          ((getTopologyData routers).edges.map edgeDir).Perm
            ((getTopologyData routers').edges.map edgeDir)) := by
  intro routers routers'
  constructor
  · exact topoEdges_proj routers
  · intro hnd hperm
    have h1 : (getTopologyData routers).edges.map edgeDir = directedNeighborPairs routers :=
      topoEdges_proj routers
    have h2 : (getTopologyData routers').edges.map edgeDir = directedNeighborPairs routers' :=
      topoEdges_proj routers'
    rw [h1, h2]
    unfold directedNeighborPairs
    have hfind : ∀ ip, findByIp routers ip = findByIp routers' ip :=
      findByIp_perm hperm hnd
    have hfun : ∀ r ∈ routers',
        ((ospfNeighborsOrEmpty r).filterMap
          (fun n => (findByIp routers' n.neighborIp).map (fun t => (r.id, t.id, n.cost))))
        = ((ospfNeighborsOrEmpty r).filterMap
          (fun n => (findByIp routers n.neighborIp).map (fun t => (r.id, t.id, n.cost)))) := by
      intro r _
      have hfn : (fun n : OSPFNeighbor =>
            (findByIp routers' n.neighborIp).map (fun t => (r.id, t.id, n.cost)))
          = (fun n : OSPFNeighbor =>
            (findByIp routers n.neighborIp).map (fun t => (r.id, t.id, n.cost))) := by
        funext n
        rw [hfind]
      rw [hfn]
    rw [List.flatMap_congr hfun]
    exact hperm.flatMap_right _

/-- Witness for the amended C1 at a concrete bidirectional device pair. -/
theorem getTopologyData_edges_characterization_witness :
    ((getTopologyData [demoRouterA, demoRouterB]).edges.map edgeDir
        = directedNeighborPairs [demoRouterA, demoRouterB])
    ∧ (((getTopologyData [demoRouterA, demoRouterB]).edges.map edgeDir).Perm
        ((getTopologyData [demoRouterB, demoRouterA]).edges.map edgeDir)) :=
  ⟨(getTopologyData_edges_characterization [demoRouterA, demoRouterB] [demoRouterB, demoRouterA]).1,
   (getTopologyData_edges_characterization [demoRouterA, demoRouterB] [demoRouterB, demoRouterA]).2
     (by decide) (by decide)⟩

theorem findPair_first {A B : Router} (hAB : A.ip ≠ B.ip) {ip : String}
    (h : ip = B.ip) : findByIp [A, B] ip = some B := by
  subst h
  unfold findByIp
  have hA : (A.ip == B.ip) = false := by
    simpa using hAB
  simp [List.find?_cons, hA]

theorem findPair_self {A B : Router} {ip : String}
    (h : ip = A.ip) : findByIp [A, B] ip = some A := by
  subst h
  unfold findByIp
  simp [List.find?_cons]

/-- C9: every directional neighbor record resolving to a known device
contributes exactly one edge entry, and for a bidirectional pair the first
direction observed is emitted with reverseCost equal to its own cost and
isAsymmetric false, the second with the first direction's cost as
reverseCost and isAsymmetric exactly when the two costs differ. -/
theorem getTopologyData_per_record_edges :
    (∀ routers : List Router,
      (getTopologyData routers).edges.length = (directedNeighborPairs routers).length)
    ∧ (∀ (A B : Router) (n1 n2 : OSPFNeighbor),
        A.ip ≠ B.ip →
        A.ospfNeighbors = some [n1] → B.ospfNeighbors = some [n2] →
        n1.neighborIp = B.ip → n2.neighborIp = A.ip →
        (getTopologyData [A, B]).edges
          = [{ id := A.id ++ "-" ++ B.id, source := A.id, target := B.id,
               cost := n1.cost, isAsymmetric := false, reverseCost := n1.cost },
             { id := B.id ++ "-" ++ A.id, source := B.id, target := A.id,
               cost := n2.cost, isAsymmetric := n1.cost != n2.cost,
               reverseCost := n1.cost }]) := by
  constructor
  · intro routers
    have h := topoEdges_proj routers
    have hlen : ((topoEdges routers).map edgeDir).length = (directedNeighborPairs routers).length := by
      rw [h]
    simpa using hlen
  · intro A B n1 n2 hAB hA hB hn1 hn2
    have hfind1 : findByIp [A, B] n1.neighborIp = some B := findPair_first hAB hn1
    have hfind2 : findByIp [A, B] n2.neighborIp = some A := findPair_self hn2
    have hkey : edgeKey B.id A.id = edgeKey A.id B.id := edgeKey_comm B.id A.id
    have hstep1 : topoProcessNeighbor [A, B] A ([], []) n1
        = ([{ id := A.id ++ "-" ++ B.id, source := A.id, target := B.id,
              cost := n1.cost, isAsymmetric := false, reverseCost := n1.cost }],
           [(edgeKey A.id B.id, ⟨A.id, B.id, n1.cost⟩)]) := by
      unfold topoProcessNeighbor
      rw [hfind1]
      simp [List.lookup]
    have hstep2 : topoProcessNeighbor [A, B] B
        ([{ id := A.id ++ "-" ++ B.id, source := A.id, target := B.id,
            cost := n1.cost, isAsymmetric := false, reverseCost := n1.cost }],
         [(edgeKey A.id B.id, ⟨A.id, B.id, n1.cost⟩)]) n2
        = ([{ id := A.id ++ "-" ++ B.id, source := A.id, target := B.id,
              cost := n1.cost, isAsymmetric := false, reverseCost := n1.cost },
            { id := B.id ++ "-" ++ A.id, source := B.id, target := A.id,
              cost := n2.cost, isAsymmetric := n1.cost != n2.cost,
              reverseCost := n1.cost }],
           [(edgeKey A.id B.id, ⟨A.id, B.id, n1.cost⟩)]) := by
      unfold topoProcessNeighbor
      rw [hfind2]
      simp [hkey, List.lookup]
    show topoEdges [A, B] = _
    unfold topoEdges
    simp only [List.foldl_cons, List.foldl_nil]
    rw [show ospfNeighborsOrEmpty A = [n1] by simp [ospfNeighborsOrEmpty, hA]]
    rw [show ospfNeighborsOrEmpty B = [n2] by simp [ospfNeighborsOrEmpty, hB]]
    simp only [List.foldl_cons, List.foldl_nil]
    rw [hstep1, hstep2]

/-- Witness for C9 at the concrete bidirectional demo pair. -/
theorem getTopologyData_per_record_edges_witness :
    ((getTopologyData [demoRouterA, demoRouterB]).edges.length
        = (directedNeighborPairs [demoRouterA, demoRouterB]).length)
    ∧ (getTopologyData [demoRouterA, demoRouterB]).edges
        = [{ id := "A1-B1", source := "A1", target := "B1",
             cost := 10, isAsymmetric := false, reverseCost := 10 },
           { id := "B1-A1", source := "B1", target := "A1",
             cost := 35, isAsymmetric := (10 : Int) != 35, reverseCost := 10 }] :=
  ⟨getTopologyData_per_record_edges.1 [demoRouterA, demoRouterB],
   getTopologyData_per_record_edges.2 demoRouterA demoRouterB
     demoNeighborAB demoNeighborBA (by decide) rfl rfl rfl rfl⟩

/-- C5: for a device pair with both directional neighbor records, equal
costs produce no AsymmetricRoute; unequal costs produce exactly one route
for the unordered pair, with difference the absolute cost gap and severity
high iff the gap exceeds 50, medium iff it lies in 21..50 and low iff it
lies in 1..20. -/
theorem getAsymmetricRoutes_pair :
    ∀ (A B : Router) (n1 n2 : OSPFNeighbor),
      A.ip ≠ B.ip →
      A.ospfNeighbors = some [n1] → B.ospfNeighbors = some [n2] →
      n1.neighborIp = B.ip → n2.neighborIp = A.ip →
      (getAsymmetricRoutes [A, B]
        = if n1.cost = n2.cost then []
          else [{ router1 := displayName A, router2 := displayName B,
                  router1Ip := A.ip, router2Ip := B.ip,
                  cost1to2 := n1.cost, cost2to1 := n2.cost,
                  difference := |n1.cost - n2.cost|,
                  severity := severityOf |n1.cost - n2.cost| }])
      ∧ (n1.cost ≠ n2.cost →
          (severityOf |n1.cost - n2.cost| = "high" ↔ 50 < |n1.cost - n2.cost|)
          ∧ (severityOf |n1.cost - n2.cost| = "medium" ↔
              21 ≤ |n1.cost - n2.cost| ∧ |n1.cost - n2.cost| ≤ 50)
          ∧ (severityOf |n1.cost - n2.cost| = "low" ↔
              1 ≤ |n1.cost - n2.cost| ∧ |n1.cost - n2.cost| ≤ 20)) := by
  intro A B n1 n2 hAB hA hB hn1 hn2
  have hfind1 : findByIp [A, B] n1.neighborIp = some B := findPair_first hAB hn1
  have hfind2 : findByIp [A, B] n2.neighborIp = some A := findPair_self hn2
  have hkey : edgeKey B.id A.id = edgeKey A.id B.id := edgeKey_comm B.id A.id
  have hrev : (List.find? (fun n => n.neighborIp == A.ip) [n2]) = some n2 := by
    simp [List.find?_cons, hn2]
  constructor
  · have hstep1 : asymProcessNeighbor [A, B] A ([], []) n1
        = if n1.cost = n2.cost then ([], [edgeKey A.id B.id])
          else ([{ router1 := displayName A, router2 := displayName B,
                   router1Ip := A.ip, router2Ip := B.ip,
                   cost1to2 := n1.cost, cost2to1 := n2.cost,
                   difference := |n1.cost - n2.cost|,
                   severity := severityOf |n1.cost - n2.cost| }],
                [edgeKey A.id B.id]) := by
      unfold asymProcessNeighbor
      rw [hfind1]
      simp only [hB, hrev, List.contains, List.elem_nil, Bool.false_eq_true, if_false]
      by_cases hc : n1.cost = n2.cost
      · simp only [if_pos hc]
      · simp only [if_neg hc, List.nil_append]
    have hstep2 : ∀ rs : List AsymmetricRoute,
        asymProcessNeighbor [A, B] B (rs, [edgeKey A.id B.id]) n2
          = (rs, [edgeKey A.id B.id]) := by
      intro rs
      unfold asymProcessNeighbor
      rw [hfind2]
      simp [hA, hkey, List.contains]
    show (List.foldl _ ([], []) [A, B]).1 = _
    simp only [List.foldl_cons, List.foldl_nil]
    rw [show ospfNeighborsOrEmpty A = [n1] by simp [ospfNeighborsOrEmpty, hA]]
    rw [show ospfNeighborsOrEmpty B = [n2] by simp [ospfNeighborsOrEmpty, hB]]
    simp only [List.foldl_cons, List.foldl_nil]
    rw [hstep1]
    by_cases hc : n1.cost = n2.cost
    · simp only [if_pos hc, hstep2]
    · simp only [if_neg hc, hstep2]
  · intro hne
    have hpos : 1 ≤ |n1.cost - n2.cost| := by
      have hz : n1.cost - n2.cost ≠ 0 := sub_ne_zero.mpr hne
      have := abs_pos.mpr hz
      omega
    unfold severityOf
    by_cases h50 : 50 < |n1.cost - n2.cost|
    · rw [if_pos h50]
      refine ⟨by simp [h50], ?_, ?_⟩
      · constructor
        · intro h; exact absurd h (by decide)
        · intro h; omega
      · constructor
        · intro h; exact absurd h (by decide)
        · intro h; omega
    · rw [if_neg h50]
      by_cases h20 : 20 < |n1.cost - n2.cost|
      · rw [if_pos h20]
        refine ⟨?_, ?_, ?_⟩
        · constructor
          · intro h; exact absurd h (by decide)
          · intro h; omega
        · constructor
          · intro _; omega
          · intro _; rfl
        · constructor
          · intro h; exact absurd h (by decide)
          · intro h; omega
      · rw [if_neg h20]
        refine ⟨?_, ?_, ?_⟩
        · constructor
          · intro h; exact absurd h (by decide)
          · intro h; omega
        · constructor
          · intro h; exact absurd h (by decide)
          · intro h; omega
        · constructor
          · intro _; omega
          · intro _; rfl

/-- Witness for C5 at the demo pair with costs 10 and 35 (difference 25,
severity medium). -/
theorem getAsymmetricRoutes_pair_witness :
    (getAsymmetricRoutes [demoRouterA, demoRouterB]
      = if demoNeighborAB.cost = demoNeighborBA.cost then []
        else [{ router1 := displayName demoRouterA, router2 := displayName demoRouterB,
                router1Ip := demoRouterA.ip, router2Ip := demoRouterB.ip,
                cost1to2 := demoNeighborAB.cost, cost2to1 := demoNeighborBA.cost,
                difference := |demoNeighborAB.cost - demoNeighborBA.cost|,
                severity := severityOf |demoNeighborAB.cost - demoNeighborBA.cost| }])
    ∧ (demoNeighborAB.cost ≠ demoNeighborBA.cost →
        (severityOf |demoNeighborAB.cost - demoNeighborBA.cost| = "high" ↔
          50 < |demoNeighborAB.cost - demoNeighborBA.cost|)
        ∧ (severityOf |demoNeighborAB.cost - demoNeighborBA.cost| = "medium" ↔
            21 ≤ |demoNeighborAB.cost - demoNeighborBA.cost|
              ∧ |demoNeighborAB.cost - demoNeighborBA.cost| ≤ 50)
        ∧ (severityOf |demoNeighborAB.cost - demoNeighborBA.cost| = "low" ↔
            1 ≤ |demoNeighborAB.cost - demoNeighborBA.cost|
              ∧ |demoNeighborAB.cost - demoNeighborBA.cost| ≤ 20)) :=
  getAsymmetricRoutes_pair demoRouterA demoRouterB demoNeighborAB demoNeighborBA
    (by decide) rfl rfl rfl rfl

/-- Claim C2 is false on the code: with a tunnel configured but its session
not connected, MikrotikClient.connect skips the tunnel branch entirely and
attempts a direct connection, so the failure surfaces as an ordinary
offline result (testConnection returns false), not as an SSHTunnelError. -/
theorem tunnel_down_reported_offline :
    tunnelDownEnv.tunnelConfigured = true
    ∧ tunnelDownEnv.tunnelConnected = false
    ∧ MikrotikClient.testConnection tunnelDownEnv "10.0.0.1" = .ok false :=
  ⟨rfl, rfl, rfl⟩

/-- C2 (amended): only a forward failure of a configured AND connected
tunnel surfaces the fatal SSHTunnelError; when the tunnel is configured but
its session is not connected, the client behaves exactly as if no tunnel
were configured and attempts a direct connection, whose failure is an
ordinary unreachable result. -/
theorem tunnel_failure_classes :
    ∀ (env : MtEnv) (host m : String),
      (env.tunnelConfigured = true → env.tunnelConnected = true →
        env.forwardResult host = .error m →
        MikrotikClient.connect env host
            = .error (.sshTunnelError ("SSH tunnel forward failed to " ++ host ++ ": " ++ m))
          ∧ MikrotikClient.testConnection env host
            = .error (.sshTunnelError ("SSH tunnel forward failed to " ++ host ++ ": " ++ m)))
      ∧ (env.tunnelConnected = false →
          MikrotikClient.connect env host
            = MikrotikClient.connect { env with tunnelConfigured := false } host) := by
  intro env host m
  constructor
  · intro hc ht hf
    have hcon : MikrotikClient.connect env host
        = .error (.sshTunnelError ("SSH tunnel forward failed to " ++ host ++ ": " ++ m)) := by
      unfold MikrotikClient.connect
      rw [hc, ht]
      simp [hf]
    exact ⟨hcon, by simp [MikrotikClient.testConnection, hcon]⟩
  · intro ht
    unfold MikrotikClient.connect
    rw [ht]
    simp

/-- Witness for the amended C2: a forward failure on a connected tunnel is
fatal, and a configured-but-disconnected tunnel behaves like no tunnel. -/
theorem tunnel_failure_classes_witness :
    (MikrotikClient.connect fwdFailEnv "10.0.0.9"
        = .error (.sshTunnelError
            ("SSH tunnel forward failed to " ++ "10.0.0.9" ++ ": " ++ "channel open failure"))
      ∧ MikrotikClient.testConnection fwdFailEnv "10.0.0.9"
        = .error (.sshTunnelError
            ("SSH tunnel forward failed to " ++ "10.0.0.9" ++ ": " ++ "channel open failure")))
    ∧ MikrotikClient.connect tunnelDownEnv "10.0.0.9"
        = MikrotikClient.connect { tunnelDownEnv with tunnelConfigured := false } "10.0.0.9" :=
  ⟨(tunnel_failure_classes fwdFailEnv "10.0.0.9" "channel open failure").1 rfl rfl rfl,
   (tunnel_failure_classes tunnelDownEnv "10.0.0.9" "unused").2 rfl⟩

/-- C4: an ordinary connection or authentication failure makes
testConnection return false, getSystemInfo return the empty object and
getOSPFNeighbors return the empty list, while an SSHTunnelError from the
connection phase is re-raised unchanged by all three operations. -/
theorem client_failure_policy :
    ∀ (env : MtEnv) (host m : String),
      (MikrotikClient.connect env host = .error (.otherError m) →
        MikrotikClient.testConnection env host = .ok false
        ∧ MikrotikClient.getSystemInfo env host = .ok ⟨none, none, none⟩
        ∧ MikrotikClient.getOSPFNeighbors env host = .ok [])
      ∧ (MikrotikClient.connect env host = .error (.sshTunnelError m) →
        MikrotikClient.testConnection env host = .error (.sshTunnelError m)
        ∧ MikrotikClient.getSystemInfo env host = .error (.sshTunnelError m)
        ∧ MikrotikClient.getOSPFNeighbors env host = .error (.sshTunnelError m)) := by
  intro env host m
  constructor
  · intro h
    refine ⟨?_, ?_, ?_⟩ <;>
      simp [MikrotikClient.testConnection, MikrotikClient.getSystemInfo,
            MikrotikClient.getOSPFNeighbors, h]
  · intro h
    refine ⟨?_, ?_, ?_⟩ <;>
      simp [MikrotikClient.testConnection, MikrotikClient.getSystemInfo,
            MikrotikClient.getOSPFNeighbors, h]

/-- Witness for C4: an unreachable host with no tunnel, and a fatal forward
failure with a connected tunnel. -/
theorem client_failure_policy_witness :
    (MikrotikClient.testConnection offlineEnv "10.0.0.7" = .ok false
      ∧ MikrotikClient.getSystemInfo offlineEnv "10.0.0.7" = .ok ⟨none, none, none⟩
      ∧ MikrotikClient.getOSPFNeighbors offlineEnv "10.0.0.7" = .ok [])
    ∧ (MikrotikClient.testConnection fwdFailEnv "10.0.0.7"
        = .error (.sshTunnelError
            ("SSH tunnel forward failed to " ++ "10.0.0.7" ++ ": " ++ "channel open failure"))
      ∧ MikrotikClient.getSystemInfo fwdFailEnv "10.0.0.7"
        = .error (.sshTunnelError
            ("SSH tunnel forward failed to " ++ "10.0.0.7" ++ ": " ++ "channel open failure"))
      ∧ MikrotikClient.getOSPFNeighbors fwdFailEnv "10.0.0.7"
        = .error (.sshTunnelError
            ("SSH tunnel forward failed to " ++ "10.0.0.7" ++ ": " ++ "channel open failure"))) :=
  ⟨(client_failure_policy offlineEnv "10.0.0.7" "connect ETIMEDOUT").1 rfl,
   (client_failure_policy fwdFailEnv "10.0.0.7"
      ("SSH tunnel forward failed to " ++ "10.0.0.7" ++ ": " ++ "channel open failure")).2 rfl⟩

theorem freshId_inj {a b : Nat} (h : freshId a = freshId b) : a = b := by
  have h2 : (freshId a).length = (freshId b).length := by rw [h]
  simp only [freshId, String.length] at h2
  simp at h2
  omega

theorem scanIps_cons_probe_error (env : MtEnv) (now total : Nat) (ip : String)
    (rest : List String) (i : Nat) (st : StorageState) (found : List Router)
    (evs : List ScanProgress) (e : MtError)
    (h : MikrotikClient.testConnection env ip = .error e) :
    scanIps env now total (ip :: rest) i st found evs
      = (st, evs ++ [⟨((i + 1) * 100) / total, "scanning", found.length, some ip, none, none⟩],
         .error (.clientError e)) := by
  simp only [scanIps, h]

theorem scanIps_cons_offline (env : MtEnv) (now total : Nat) (ip : String)
    (rest : List String) (i : Nat) (st : StorageState) (found : List Router)
    (evs : List ScanProgress)
    (h : MikrotikClient.testConnection env ip = .ok false) :
    scanIps env now total (ip :: rest) i st found evs
      = scanIps env now total rest (i + 1) st found
          (evs ++ [⟨((i + 1) * 100) / total, "scanning", found.length, some ip, none, none⟩]) := by
  simp only [scanIps, h]

theorem scanIps_cons_create (env : MtEnv) (now total : Nat) (ip : String)
    (rest : List String) (i : Nat) (st : StorageState) (found : List Router)
    (evs : List ScanProgress) (info : MikrotikClient.SystemInfo)
    (nbrs : List OSPFNeighbor)
    (h1 : MikrotikClient.testConnection env ip = .ok true)
    (h2 : MikrotikClient.getSystemInfo env ip = .ok info)
    (h3 : MikrotikClient.getOSPFNeighbors env ip = .ok nbrs)
    (h4 : getRouterByIp st ip = none) :
    scanIps env now total (ip :: rest) i st found evs
      = scanIps env now total rest (i + 1)
          (createRouter st now
            ⟨ip, info.identity, info.identity, info.version, info.model,
             some "online", some nbrs⟩).2
          (found ++ [(createRouter st now
            ⟨ip, info.identity, info.identity, info.version, info.model,
             some "online", some nbrs⟩).1])
          (evs ++ [⟨((i + 1) * 100) / total, "scanning", found.length, some ip, none, none⟩]) := by
  simp only [scanIps, h1, h2, h3, h4]

theorem scanIps_cons_update (env : MtEnv) (now total : Nat) (ip : String)
    (rest : List String) (i : Nat) (st : StorageState) (found : List Router)
    (evs : List ScanProgress) (info : MikrotikClient.SystemInfo)
    (nbrs : List OSPFNeighbor) (r : Router)
    (h1 : MikrotikClient.testConnection env ip = .ok true)
    (h2 : MikrotikClient.getSystemInfo env ip = .ok info)
    (h3 : MikrotikClient.getOSPFNeighbors env ip = .ok nbrs)
    (h4 : getRouterByIp st ip = some r)
    (h5 : st.routers.find? (fun x => x.id == r.id) = some r) :
    scanIps env now total (ip :: rest) i st found evs
      = scanIps env now total rest (i + 1)
          { st with routers := st.routers.map (fun x =>
              if x.id == r.id
              then applyScanUpdate ⟨"online", info.identity, info.version, info.model, nbrs, now⟩ r
              else x) }
          (found ++ [applyScanUpdate
              ⟨"online", info.identity, info.version, info.model, nbrs, now⟩ r])
          (evs ++ [⟨((i + 1) * 100) / total, "scanning", found.length, some ip, none, none⟩]) := by
  simp only [scanIps, h1, h2, h3, h4, updateRouterScan, h5]

theorem scanIps_cons_info_error (env : MtEnv) (now total : Nat) (ip : String)
    (rest : List String) (i : Nat) (st : StorageState) (found : List Router)
    (evs : List ScanProgress) (e : MtError)
    (h1 : MikrotikClient.testConnection env ip = .ok true)
    (h2 : MikrotikClient.getSystemInfo env ip = .error e) :
    scanIps env now total (ip :: rest) i st found evs
      = (st, evs ++ [⟨((i + 1) * 100) / total, "scanning", found.length, some ip, none, none⟩],
         .error (.clientError e)) := by
  simp only [scanIps, h1, h2]

theorem scanIps_cons_ospf_error (env : MtEnv) (now total : Nat) (ip : String)
    (rest : List String) (i : Nat) (st : StorageState) (found : List Router)
    (evs : List ScanProgress) (info : MikrotikClient.SystemInfo) (e : MtError)
    (h1 : MikrotikClient.testConnection env ip = .ok true)
    (h2 : MikrotikClient.getSystemInfo env ip = .ok info)
    (h3 : MikrotikClient.getOSPFNeighbors env ip = .error e) :
    scanIps env now total (ip :: rest) i st found evs
      = (st, evs ++ [⟨((i + 1) * 100) / total, "scanning", found.length, some ip, none, none⟩],
         .error (.clientError e)) := by
  simp only [scanIps, h1, h2, h3]

theorem scanIps_scans_and_errors (env : MtEnv) (now total : Nat) :
    ∀ (ips : List String) (i : Nat) (st : StorageState) (found : List Router)
      (evs : List ScanProgress),
      ((scanIps env now total ips i st found evs).1.scans = st.scans)
      ∧ (∀ e, (scanIps env now total ips i st found evs).2.2 = .error e →
          ∃ me, e = .clientError me) := by
  intro ips
  induction ips with
  | nil =>
    intro i st found evs
    exact ⟨rfl, by intro e h; simp [scanIps] at h⟩
  | cons ip rest ih =>
    intro i st found evs
    cases htc : MikrotikClient.testConnection env ip with
    | error e =>
      rw [scanIps_cons_probe_error env now total ip rest i st found evs e htc]
      exact ⟨rfl, by intro e0 h; simp at h; exact ⟨e, h.symm⟩⟩
    | ok b =>
      cases b with
      | false =>
        rw [scanIps_cons_offline env now total ip rest i st found evs htc]
        exact ih (i + 1) st found _
      | true =>
        cases hsi : MikrotikClient.getSystemInfo env ip with
        | error e =>
          rw [scanIps_cons_info_error env now total ip rest i st found evs e htc hsi]
          exact ⟨rfl, by intro e0 h; simp at h; exact ⟨e, h.symm⟩⟩
        | ok info =>
          cases hos : MikrotikClient.getOSPFNeighbors env ip with
          | error e =>
            rw [scanIps_cons_ospf_error env now total ip rest i st found evs info e htc hsi hos]
            exact ⟨rfl, by intro e0 h; simp at h; exact ⟨e, h.symm⟩⟩
          | ok nbrs =>
            cases hby : getRouterByIp st ip with
            | none =>
              rw [scanIps_cons_create env now total ip rest i st found evs info nbrs
                    htc hsi hos hby]
              exact ih (i + 1) _ _ _
            | some r =>
              cases hf : st.routers.find? (fun x => x.id == r.id) with
              | none =>
                have hstep : scanIps env now total (ip :: rest) i st found evs
                    = scanIps env now total rest (i + 1) st found
                        (evs ++ [⟨((i + 1) * 100) / total, "scanning",
                                  found.length, some ip, none, none⟩]) := by
                  simp only [scanIps, htc, hsi, hos, hby, updateRouterScan, hf]
                rw [hstep]
                exact ih (i + 1) st found _
              | some x =>
                have hstep : scanIps env now total (ip :: rest) i st found evs
                    = scanIps env now total rest (i + 1)
                        { st with routers := st.routers.map (fun y =>
                            if y.id == r.id
                            then applyScanUpdate
                              ⟨"online", info.identity, info.version, info.model, nbrs, now⟩ x
                            else y) }
                        (found ++ [applyScanUpdate
                            ⟨"online", info.identity, info.version, info.model, nbrs, now⟩ x])
                        (evs ++ [⟨((i + 1) * 100) / total, "scanning",
                                  found.length, some ip, none, none⟩]) := by
                  simp only [scanIps, htc, hsi, hos, hby, updateRouterScan, hf]
                rw [hstep]
                exact ih (i + 1) _ _ _

theorem scanIps_offline (env : MtEnv) (now total : Nat) :
    ∀ (ips : List String) (i : Nat) (st : StorageState) (found : List Router)
      (evs : List ScanProgress),
      (∀ p ∈ ips, MikrotikClient.testConnection env p = .ok false) →
      scanIps env now total ips i st found evs
        = (st, evs ++ specOfflineEvents total found.length i ips, .ok found) := by
  intro ips
  induction ips with
  | nil =>
    intro i st found evs _
    simp [scanIps, specOfflineEvents]
  | cons ip rest ih =>
    intro i st found evs h
    rw [scanIps_cons_offline env now total ip rest i st found evs (h ip (by simp))]
    rw [ih (i + 1) st found _ (fun p hp => h p (by simp [hp]))]
    simp [specOfflineEvents]

theorem scanSubnet_scans (env : MtEnv) (now : Nat)
    (enumResult : Except String (List String)) (st : StorageState) :
    (scanSubnet env now enumResult st).1.scans = st.scans := by
  cases enumResult with
  | error m => rfl
  | ok ips =>
    simp only [scanSubnet]
    by_cases h : ips.length > 1024
    · rw [if_pos h]
    · rw [if_neg h]
      rcases hres : scanIps env now ips.length ips 0 st [] [] with ⟨st', evs, r⟩
      have hscans := (scanIps_scans_and_errors env now ips.length ips 0 st [] []).1
      rw [hres] at hscans
      cases r with
      | ok found => simpa using hscans
      | error e => simpa using hscans

theorem scanSubnet_too_large (env : MtEnv) (now : Nat) (ips : List String)
    (st : StorageState) (h : ips.length > 1024) :
    scanSubnet env now (.ok ips) st
      = (st, [⟨0, "error", 0, none,
               some (ScanError.subnetTooLarge ips.length).message, none⟩],
         .error (.subnetTooLarge ips.length)) := by
  simp only [scanSubnet]
  rw [if_pos h]

/-- C6: the size guard rejects an enumeration of more than 1024 addresses
before any probe, leaving the store untouched and emitting only the
terminal error event, and a run whose enumeration has at most 1024
addresses never fails with the SubnetTooLarge error. -/
theorem scanSubnet_size_guard :
    ∀ (env : MtEnv) (now : Nat) (ips : List String) (st : StorageState),
      (ips.length > 1024 →
        scanSubnet env now (.ok ips) st
          = (st, [⟨0, "error", 0, none,
                   some (ScanError.subnetTooLarge ips.length).message, none⟩],
             .error (.subnetTooLarge ips.length)))
      ∧ (ips.length ≤ 1024 →
          ∀ t, (scanSubnet env now (.ok ips) st).2.2 ≠ .error (.subnetTooLarge t)) := by
  intro env now ips st
  constructor
  · intro h
    exact scanSubnet_too_large env now ips st h
  · intro h t hcontra
    simp only [scanSubnet] at hcontra
    rw [if_neg (by omega)] at hcontra
    rcases hres : scanIps env now ips.length ips 0 st [] [] with ⟨st', evs, r⟩
    rw [hres] at hcontra
    cases r with
    | ok found => simp at hcontra
    | error e =>
      simp only at hcontra
      have herr := (scanIps_scans_and_errors env now ips.length ips 0 st [] []).2 e
      rw [hres] at herr
      obtain ⟨me, hme⟩ := herr rfl
      simp at hcontra
      rw [hme] at hcontra
      exact absurd hcontra (by simp)

/-- Witness for C6 at the boundary: 1025 addresses are rejected with the
guard error and untouched storage, 1024 addresses never produce it. -/
theorem scanSubnet_size_guard_witness :
    (scanSubnet offlineEnv 0 (.ok (List.replicate 1025 "10.0.0.1")) ⟨[], [], 0⟩
      = (⟨[], [], 0⟩,
         [⟨0, "error", 0, none,
           some (ScanError.subnetTooLarge (List.replicate 1025 "10.0.0.1").length).message,
           none⟩],
         .error (.subnetTooLarge (List.replicate 1025 "10.0.0.1").length)))
    ∧ ∀ t, (scanSubnet offlineEnv 0 (.ok (List.replicate 1024 "10.0.0.1")) ⟨[], [], 0⟩).2.2
        ≠ .error (.subnetTooLarge t) :=
  ⟨(scanSubnet_size_guard offlineEnv 0 (List.replicate 1025 "10.0.0.1") ⟨[], [], 0⟩).1
     (by rw [List.length_replicate]; omega),
   fun t => (scanSubnet_size_guard offlineEnv 0 (List.replicate 1024 "10.0.0.1") ⟨[], [], 0⟩).2
     (by rw [List.length_replicate]) t⟩

theorem find?_scan_update (f : Scan → Scan) (hf : ∀ s, (f s).id = s.id) (id : String) :
    ∀ l : List Scan,
      (l.map (fun s => if s.id == id then f s else s)).find? (fun s => s.id == id)
        = (l.find? (fun s => s.id == id)).map f := by
  intro l
  induction l with
  | nil => rfl
  | cons s l ih =>
    cases h : s.id == id with
    | false =>
      simp only [List.map_cons, h, Bool.false_eq_true, if_false]
      rw [List.find?_cons_of_neg _ (by simp [h]), List.find?_cons_of_neg _ (by simp [h])]
      exact ih
    | true =>
      simp only [List.map_cons, h, if_true]
      have hfs : ((f s).id == id) = true := by rw [hf]; exact h
      simp [List.find?_cons, hfs, h]

theorem runScanBackground_error (env : MtEnv) (now : Nat)
    (enumResult : Except String (List String)) (st : StorageState) (scanId : String)
    (s0 : Scan) (st2 : StorageState) (evs : List ScanProgress) (e : ScanError)
    (hrec : st.scans.find? (fun s => s.id == scanId) = some s0)
    (hrun : scanSubnet env now enumResult
        (updateScan st scanId (fun s => { s with status := "scanning" })) = (st2, evs, .error e)) :
    scanStatus (runScanBackground env now enumResult st scanId).1 scanId = some "error"
    ∧ (runScanBackground env now enumResult st scanId).2
        = evs ++ [⟨0, "error", 0, none, some e.message, none⟩] := by
  have hscans2 : st2.scans
      = (updateScan st scanId (fun s => { s with status := "scanning" })).scans := by
    have := scanSubnet_scans env now enumResult
      (updateScan st scanId (fun s => { s with status := "scanning" }))
    rw [hrun] at this
    exact this
  simp only [runScanBackground, hrun]
  constructor
  · simp only [scanStatus, updateScan]
    rw [find?_scan_update (fun s => { s with status := "error", completedAt := some now }) (fun s => rfl) scanId]
    rw [hscans2]
    simp only [updateScan]
    rw [find?_scan_update (fun s => { s with status := "scanning" }) (fun s => rfl) scanId, hrec]
    rfl
  · trivial

theorem runScanBackground_completed (env : MtEnv) (now : Nat)
    (enumResult : Except String (List String)) (st : StorageState) (scanId : String)
    (s0 : Scan) (st2 : StorageState) (evs : List ScanProgress) (found : List Router)
    (hrec : st.scans.find? (fun s => s.id == scanId) = some s0)
    (hrun : scanSubnet env now enumResult
        (updateScan st scanId (fun s => { s with status := "scanning" })) = (st2, evs, .ok found)) :
    scanStatus (runScanBackground env now enumResult st scanId).1 scanId = some "completed" := by
  have hscans2 : st2.scans
      = (updateScan st scanId (fun s => { s with status := "scanning" })).scans := by
    have := scanSubnet_scans env now enumResult
      (updateScan st scanId (fun s => { s with status := "scanning" }))
    rw [hrun] at this
    exact this
  simp only [runScanBackground, hrun]
  simp only [scanStatus, updateScan]
  rw [find?_scan_update (fun s => { s with status := "completed", completedAt := some now, routersFound := found.length, asymmetriesFound := (getAsymmetricRoutes st2.routers).length, results := some ⟨found.map Router.id, getAsymmetricRoutes st2.routers, getTopologyData st2.routers⟩ }) (fun s => rfl) scanId]
  rw [hscans2]
  simp only [updateScan]
  rw [find?_scan_update (fun s => { s with status := "scanning" }) (fun s => rfl) scanId, hrec]
  rfl

theorem scanIps_offline_run (env : MtEnv) (now total : Nat) :
    ∀ (pre rest : List String) (i : Nat) (st : StorageState) (found : List Router)
      (evs : List ScanProgress),
      (∀ p ∈ pre, MikrotikClient.testConnection env p = .ok false) →
      scanIps env now total (pre ++ rest) i st found evs
        = scanIps env now total rest (i + pre.length) st found
            (evs ++ specOfflineEvents total found.length i pre) := by
  intro pre
  induction pre with
  | nil =>
    intro rest i st found evs _
    simp [specOfflineEvents]
  | cons p pre ih =>
    intro rest i st found evs h
    rw [List.cons_append,
        scanIps_cons_offline env now total p (pre ++ rest) i st found evs (h p (by simp)),
        ih rest (i + 1) st found _ (fun q hq => h q (by simp [hq]))]
    simp only [specOfflineEvents, List.length_cons]
    rw [List.append_assoc]
    have : i + 1 + pre.length = i + (pre.length + 1) := by omega
    rw [this]
    rfl

/-- C3: a fatal SSHTunnelError at one address makes the loop ignore every
remaining address and return the error; the whole run then ends with the
terminal error event, propagates the error and drives the ScanJob to the
error status — while a run in which every probe fails in the ordinary way
finishes and drives the ScanJob to completed. -/
theorem scan_fatal_aborts_offline_continues :
    (∀ (env : MtEnv) (now total : Nat) (ip : String) (rest rest' : List String)
       (i : Nat) (st : StorageState) (found : List Router) (evs : List ScanProgress)
       (m : String),
       MikrotikClient.testConnection env ip = .error (.sshTunnelError m) →
       scanIps env now total (ip :: rest) i st found evs
         = scanIps env now total (ip :: rest') i st found evs
       ∧ scanIps env now total (ip :: rest) i st found evs
         = (st, evs ++ [⟨((i + 1) * 100) / total, "scanning", found.length, some ip, none, none⟩],
            .error (.clientError (.sshTunnelError m))))
    ∧ (∀ (env : MtEnv) (now : Nat) (pre : List String) (ip : String) (post : List String)
         (st : StorageState) (m : String),
        (pre ++ ip :: post).length ≤ 1024 →
        (∀ p ∈ pre, MikrotikClient.testConnection env p = .ok false) →
        MikrotikClient.testConnection env ip = .error (.sshTunnelError m) →
        scanSubnet env now (.ok (pre ++ ip :: post)) st
          = (st, specOfflineEvents (pre ++ ip :: post).length 0 0 pre
               ++ [⟨((pre.length + 1) * 100) / (pre ++ ip :: post).length, "scanning", 0,
                    some ip, none, none⟩,
                   ⟨0, "error", 0, none, some m, none⟩],
             .error (.clientError (.sshTunnelError m))))
    ∧ (∀ (env : MtEnv) (now : Nat) (enumResult : Except String (List String))
         (st : StorageState) (scanId : String) (s0 : Scan) (st2 : StorageState)
         (evs : List ScanProgress) (e : ScanError),
        st.scans.find? (fun s => s.id == scanId) = some s0 →
        scanSubnet env now enumResult
            (updateScan st scanId (fun s => { s with status := "scanning" }))
          = (st2, evs, .error e) →
        scanStatus (runScanBackground env now enumResult st scanId).1 scanId = some "error"
        ∧ (runScanBackground env now enumResult st scanId).2
            = evs ++ [⟨0, "error", 0, none, some e.message, none⟩])
    ∧ (∀ (env : MtEnv) (now : Nat) (ips : List String) (st : StorageState)
         (scanId : String) (s0 : Scan),
        ips.length ≤ 1024 →
        (∀ p ∈ ips, MikrotikClient.testConnection env p = .ok false) →
        st.scans.find? (fun s => s.id == scanId) = some s0 →
        scanStatus (runScanBackground env now (.ok ips) st scanId).1 scanId
          = some "completed") := by
  refine ⟨?_, ?_, ?_, ?_⟩
  · intro env now total ip rest rest' i st found evs m h
    rw [scanIps_cons_probe_error env now total ip rest i st found evs _ h,
        scanIps_cons_probe_error env now total ip rest' i st found evs _ h]
    exact ⟨rfl, rfl⟩
  · intro env now pre ip post st m hlen hpre hip
    simp only [scanSubnet]
    rw [if_neg (by omega)]
    rw [scanIps_offline_run env now (pre ++ ip :: post).length pre (ip :: post) 0 st [] []
          hpre]
    rw [scanIps_cons_probe_error env now (pre ++ ip :: post).length ip post (0 + pre.length)
          st [] _ _ hip]
    simp [ScanError.message, Nat.zero_add]
  · intro env now enumResult st scanId s0 st2 evs e hrec hrun
    exact runScanBackground_error env now enumResult st scanId s0 st2 evs e hrec hrun
  · intro env now ips st scanId s0 hlen hoff hrec
    have hrun : scanSubnet env now (.ok ips)
        (updateScan st scanId (fun s => { s with status := "scanning" }))
        = (updateScan st scanId (fun s => { s with status := "scanning" }),
           specOfflineEvents ips.length 0 0 ips ++ [⟨100, "completed", 0, none, none, none⟩],
           .ok []) := by
      simp only [scanSubnet]
      rw [if_neg (by omega)]
      rw [scanIps_offline env now ips.length ips 0 _ [] [] hoff]
      simp
    exact runScanBackground_completed env now (.ok ips) st scanId s0 _ _ _ hrec hrun

/-- Witness for C3: host 10.0.0.2 raises the fatal tunnel error, host
10.0.0.1 probes offline; the fatal run aborts, reports and errors the job,
the offline-only run completes it. -/
theorem scan_fatal_aborts_offline_continues_witness :
    (scanIps mixedEnv 3 2 ["10.0.0.2", "10.0.0.9"] 0 wSt [] []
        = scanIps mixedEnv 3 2 ["10.0.0.2"] 0 wSt [] []
      ∧ scanIps mixedEnv 3 2 ["10.0.0.2", "10.0.0.9"] 0 wSt [] []
        = (wSt, [⟨50, "scanning", 0, some "10.0.0.2", none, none⟩],
           .error (.clientError (.sshTunnelError
             "SSH tunnel forward failed to 10.0.0.2: channel open failure"))))
    ∧ (scanSubnet mixedEnv 3 (.ok ["10.0.0.1", "10.0.0.2", "10.0.0.9"]) wSt
        = (wSt, [⟨33, "scanning", 0, some "10.0.0.1", none, none⟩,
                 ⟨66, "scanning", 0, some "10.0.0.2", none, none⟩,
                 ⟨0, "error", 0, none,
                  some "SSH tunnel forward failed to 10.0.0.2: channel open failure", none⟩],
           .error (.clientError (.sshTunnelError
             "SSH tunnel forward failed to 10.0.0.2: channel open failure"))))
    ∧ (scanStatus (runScanBackground mixedEnv 3 (.ok ["10.0.0.2"]) wSt "s1").1 "s1"
        = some "error"
      ∧ (runScanBackground mixedEnv 3 (.ok ["10.0.0.2"]) wSt "s1").2
        = [⟨100, "scanning", 0, some "10.0.0.2", none, none⟩,
           ⟨0, "error", 0, none,
            some "SSH tunnel forward failed to 10.0.0.2: channel open failure", none⟩]
          ++ [⟨0, "error", 0, none,
               some "SSH tunnel forward failed to 10.0.0.2: channel open failure", none⟩])
    ∧ scanStatus (runScanBackground offlineEnv 3 (.ok ["10.0.0.1"]) wSt "s1").1 "s1"
        = some "completed" :=
  ⟨scan_fatal_aborts_offline_continues.1 mixedEnv 3 2 "10.0.0.2" ["10.0.0.9"] [] 0 wSt [] []
      _ rfl,
   scan_fatal_aborts_offline_continues.2.1 mixedEnv 3 ["10.0.0.1"] "10.0.0.2" ["10.0.0.9"]
      wSt _ (by decide) (by intro p hp; simp at hp; subst hp; rfl) rfl,
   scan_fatal_aborts_offline_continues.2.2.1 mixedEnv 3 (.ok ["10.0.0.2"]) wSt "s1" wScan
      _ _ _ rfl rfl,
   scan_fatal_aborts_offline_continues.2.2.2 offlineEnv 3 ["10.0.0.1"] wSt "s1" wScan
      (by decide) (by intro p hp; simp at hp; subst hp; rfl) rfl⟩

/-- C10: every error outcome of scanSubnet ends its event list with the
terminal error event carrying progress 0 and routersFound 0, whatever had
been found before; and a device upserted before a later fatal abort stays
in the store (the returned storage is exactly the post-upsert storage). -/
theorem scanSubnet_error_event_shape :
    (∀ (env : MtEnv) (now : Nat) (enumResult : Except String (List String))
       (st st2 : StorageState) (evs : List ScanProgress) (e : ScanError),
       scanSubnet env now enumResult st = (st2, evs, .error e) →
       evs.getLast? = some ⟨0, "error", 0, none, some e.message, none⟩)
    ∧ (∀ (env : MtEnv) (now : Nat) (ip1 ip2 : String) (st : StorageState)
         (info : MikrotikClient.SystemInfo) (nbrs : List OSPFNeighbor) (m : String),
        MikrotikClient.testConnection env ip1 = .ok true →
        MikrotikClient.getSystemInfo env ip1 = .ok info →
        MikrotikClient.getOSPFNeighbors env ip1 = .ok nbrs →
        getRouterByIp st ip1 = none →
        MikrotikClient.testConnection env ip2 = .error (.sshTunnelError m) →
        (scanSubnet env now (.ok [ip1, ip2]) st).1
          = (createRouter st now
              ⟨ip1, info.identity, info.identity, info.version, info.model,
               some "online", some nbrs⟩).2
        ∧ (scanSubnet env now (.ok [ip1, ip2]) st).1.routers.length
          = st.routers.length + 1
        ∧ ((scanSubnet env now (.ok [ip1, ip2]) st).2.1).getLast?
          = some ⟨0, "error", 0, none, some m, none⟩) := by
  constructor
  · intro env now enumResult st st2 evs e h
    have hevs := congrArg
      (fun t : StorageState × List ScanProgress × Except ScanError (List Router) => t.2.1) h
    have herr := congrArg
      (fun t : StorageState × List ScanProgress × Except ScanError (List Router) => t.2.2) h
    simp only at hevs herr
    cases enumResult with
    | error m =>
      simp only [scanSubnet] at hevs herr
      rw [← hevs]
      have he : ScanError.invalidSubnet m = e := by simpa using herr
      rw [← he]
      rfl
    | ok ips =>
      by_cases hlen : ips.length > 1024
      · simp only [scanSubnet, if_pos hlen] at hevs herr
        rw [← hevs]
        have he : ScanError.subnetTooLarge ips.length = e := by simpa using herr
        rw [← he]
        rfl
      · simp only [scanSubnet, if_neg hlen] at hevs herr
        rcases hres : scanIps env now ips.length ips 0 st [] [] with ⟨st', evs', r⟩
        rw [hres] at hevs herr
        cases r with
        | ok found => simp at herr
        | error e' =>
          simp only at hevs herr
          have he : e' = e := by simpa using herr
          rw [← hevs, ← he]
          simp [List.getLast?_concat]
  · intro env now ip1 ip2 st info nbrs m h1 h2 h3 h4 h5
    have hloop : scanIps env now ([ip1, ip2].length) [ip1, ip2] 0 st [] []
        = ((createRouter st now
             ⟨ip1, info.identity, info.identity, info.version, info.model,
              some "online", some nbrs⟩).2,
           [⟨50, "scanning", 0, some ip1, none, none⟩,
            ⟨100, "scanning", 1, some ip2, none, none⟩],
           .error (.clientError (.sshTunnelError m))) := by
      rw [scanIps_cons_create env now ([ip1, ip2].length) ip1 [ip2] 0 st [] [] info nbrs
            h1 h2 h3 h4]
      rw [scanIps_cons_probe_error env now ([ip1, ip2].length) ip2 [] (0 + 1) _ _ _ _ h5]
      simp
    have hsub : scanSubnet env now (.ok [ip1, ip2]) st
        = ((createRouter st now
             ⟨ip1, info.identity, info.identity, info.version, info.model,
              some "online", some nbrs⟩).2,
           [⟨50, "scanning", 0, some ip1, none, none⟩,
            ⟨100, "scanning", 1, some ip2, none, none⟩,
            ⟨0, "error", 0, none, some m, none⟩],
           .error (.clientError (.sshTunnelError m))) := by
      simp only [scanSubnet]
      rw [if_neg (by simp)]
      rw [hloop]
      simp [ScanError.message]
    refine ⟨by rw [hsub], ?_, by rw [hsub]; rfl⟩
    rw [hsub]
    simp [createRouter]

/-- Witness for C10: the error run over 10.0.0.2 ends with the zeroed error
event, and a run that upserts 10.0.0.1 before the fatal abort keeps the
created device while still reporting routersFound 0 in the final event. -/
theorem scanSubnet_error_event_shape_witness :
    ([⟨100, "scanning", 0, some "10.0.0.2", none, none⟩,
      ⟨0, "error", 0, none,
       some "SSH tunnel forward failed to 10.0.0.2: channel open failure", none⟩].getLast?
        = some (⟨0, "error", 0, none,
            some "SSH tunnel forward failed to 10.0.0.2: channel open failure", none⟩ :
            ScanProgress))
    ∧ ((scanSubnet upEnv 9 (.ok ["10.0.0.1", "10.0.0.2"]) wSt).1
        = (createRouter wSt 9
            ⟨"10.0.0.1", some "router-one", some "router-one", some "7.11", some "CCR",
             some "online", some []⟩).2
      ∧ (scanSubnet upEnv 9 (.ok ["10.0.0.1", "10.0.0.2"]) wSt).1.routers.length
        = wSt.routers.length + 1
      ∧ ((scanSubnet upEnv 9 (.ok ["10.0.0.1", "10.0.0.2"]) wSt).2.1).getLast?
        = some ⟨0, "error", 0, none,
            some "SSH tunnel forward failed to 10.0.0.2: channel open failure", none⟩) :=
  ⟨scanSubnet_error_event_shape.1 mixedEnv 3 (.ok ["10.0.0.2"]) wSt wSt _ _ rfl,
   scanSubnet_error_event_shape.2 upEnv 9 "10.0.0.1" "10.0.0.2" wSt
     ⟨some "router-one", some "7.11", some "CCR"⟩ [] _ rfl rfl rfl rfl rfl⟩

theorem find?_id_of_mem {l : List Router} {r : Router}
    (hmem : r ∈ l) (hnd : (l.map Router.id).Nodup) :
    l.find? (fun x => x.id == r.id) = some r := by
  induction l with
  | nil => cases hmem
  | cons a l ih =>
    simp only [List.map_cons, List.nodup_cons] at hnd
    obtain ⟨hna, hnd⟩ := hnd
    rcases List.mem_cons.mp hmem with h | h
    · subst h
      simp [List.find?_cons]
    · have haid : (a.id == r.id) = false := by
        have hrid : r.id ∈ l.map Router.id := List.mem_map_of_mem _ h
        have : a.id ≠ r.id := fun he => hna (he ▸ hrid)
        simpa using this
      rw [List.find?_cons_of_neg _ (by simp [haid])]
      exact ih h hnd

theorem map_id_replace {l : List Router} {r : Router} (u : ScanUpdate) :
    (l.map (fun x => if x.id == r.id then applyScanUpdate u r else x)).map Router.id
      = l.map Router.id := by
  rw [List.map_map]
  apply List.map_congr_left
  intro x hx
  by_cases h : (x.id == r.id) = true
  · have hxr : x.id = r.id := by simpa using h
    simp [Function.comp, h, applyScanUpdate, hxr]
  · simp [Function.comp, h]

theorem map_ip_replace {l : List Router} {r : Router} (u : ScanUpdate)
    (hmem : r ∈ l) (hnd : (l.map Router.id).Nodup) :
    (l.map (fun x => if x.id == r.id then applyScanUpdate u r else x)).map Router.ip
      = l.map Router.ip := by
  rw [List.map_map]
  apply List.map_congr_left
  intro x hx
  by_cases h : (x.id == r.id) = true
  · have hxr : x = r := List.inj_on_of_nodup_map hnd hx hmem (by simpa using h)
    simp [Function.comp, h, applyScanUpdate, hxr]
  · simp [Function.comp, h]

theorem storeWF_create (st : StorageState) (now : Nat) (ins : InsertRouter)
    (hwf : storeWF st) (hnone : getRouterByIp st ins.ip = none) :
    storeWF (createRouter st now ins).2 := by
  obtain ⟨hid, hip, hfr⟩ := hwf
  have hipnew : ins.ip ∉ st.routers.map Router.ip := by
    intro hmem
    obtain ⟨r, hr, hrip⟩ := List.mem_map.mp hmem
    have := List.find?_eq_none.mp hnone r hr
    simp [hrip] at this
  have hidnew : freshId st.nextId ∉ st.routers.map Router.id := by
    intro hmem
    obtain ⟨r, hr, hrid⟩ := List.mem_map.mp hmem
    exact hfr r hr st.nextId (le_refl _) hrid
  refine ⟨?_, ?_, ?_⟩
  · simp only [createRouter, List.map_append, List.map_cons, List.map_nil]
    rw [List.nodup_append]
    exact ⟨hid, by simp, by simpa [List.disjoint_singleton] using hidnew⟩
  · simp only [createRouter, List.map_append, List.map_cons, List.map_nil]
    rw [List.nodup_append]
    exact ⟨hip, by simp, by simpa [List.disjoint_singleton] using hipnew⟩
  · intro r hr k hk
    simp only [createRouter] at hr hk
    rcases List.mem_append.mp hr with h | h
    · exact hfr r h k (by omega)
    · simp at h
      subst h
      intro hcon
      have := freshId_inj hcon
      omega

theorem storeWF_update (st : StorageState) (r : Router) (u : ScanUpdate)
    (hmem : r ∈ st.routers) (hwf : storeWF st) :
    storeWF { st with routers := st.routers.map (fun x =>
        if x.id == r.id then applyScanUpdate u r else x) } := by
  obtain ⟨hid, hip, hfr⟩ := hwf
  refine ⟨?_, ?_, ?_⟩
  · rw [map_id_replace]
    exact hid
  · rw [map_ip_replace u hmem hid]
    exact hip
  · intro x hx k hk hcon
    have hxid : x.id ∈ (st.routers.map (fun x =>
        if x.id == r.id then applyScanUpdate u r else x)).map Router.id :=
      List.mem_map_of_mem _ hx
    rw [map_id_replace] at hxid
    obtain ⟨y, hy, hyid⟩ := List.mem_map.mp hxid
    exact hfr y hy k hk (by rw [hyid, hcon])

theorem scanIps_storeWF (env : MtEnv) (now total : Nat) :
    ∀ (ips : List String) (i : Nat) (st : StorageState) (found : List Router)
      (evs : List ScanProgress),
      storeWF st → storeWF (scanIps env now total ips i st found evs).1 := by
  intro ips
  induction ips with
  | nil =>
    intro i st found evs hwf
    exact hwf
  | cons ip rest ih =>
    intro i st found evs hwf
    cases htc : MikrotikClient.testConnection env ip with
    | error e =>
      rw [scanIps_cons_probe_error env now total ip rest i st found evs e htc]
      exact hwf
    | ok b =>
      cases b with
      | false =>
        rw [scanIps_cons_offline env now total ip rest i st found evs htc]
        exact ih (i + 1) st found _ hwf
      | true =>
        cases hsi : MikrotikClient.getSystemInfo env ip with
        | error e =>
          rw [scanIps_cons_info_error env now total ip rest i st found evs e htc hsi]
          exact hwf
        | ok info =>
          cases hos : MikrotikClient.getOSPFNeighbors env ip with
          | error e =>
            rw [scanIps_cons_ospf_error env now total ip rest i st found evs info e htc hsi hos]
            exact hwf
          | ok nbrs =>
            cases hby : getRouterByIp st ip with
            | none =>
              rw [scanIps_cons_create env now total ip rest i st found evs info nbrs
                    htc hsi hos hby]
              exact ih (i + 1) _ _ _ (storeWF_create st now _ hwf hby)
            | some r =>
              have hmem : r ∈ st.routers := List.mem_of_find?_eq_some hby
              have hfind : st.routers.find? (fun x => x.id == r.id) = some r :=
                find?_id_of_mem hmem hwf.1
              rw [scanIps_cons_update env now total ip rest i st found evs info nbrs r
                    htc hsi hos hby hfind]
              exact ih (i + 1) _ _ _ (storeWF_update st r _ hmem hwf)

theorem scanSubnet_storeWF (env : MtEnv) (now : Nat)
    (enumResult : Except String (List String)) (st : StorageState)
    (hwf : storeWF st) : storeWF (scanSubnet env now enumResult st).1 := by
  cases enumResult with
  | error m => exact hwf
  | ok ips =>
    simp only [scanSubnet]
    by_cases hlen : ips.length > 1024
    · rw [if_pos hlen]
      exact hwf
    · rw [if_neg hlen]
      rcases hres : scanIps env now ips.length ips 0 st [] [] with ⟨st', evs, r⟩
      have := scanIps_storeWF env now ips.length ips 0 st [] [] hwf
      rw [hres] at this
      cases r with
      | ok found => exact this
      | error e => exact this

/-- C8: probing an ip that already has a device record takes the update
path: the stored record is overwritten in place under its own id while the
store's ip list and size stay unchanged, and a whole scan (or any sequence
of scans) over a well-formed store preserves well-formedness, hence keeps
at most one device per ip. -/
theorem rescan_updates_in_place :
    (∀ (env : MtEnv) (now total : Nat) (ip : String) (rest : List String) (i : Nat)
       (st : StorageState) (found : List Router) (evs : List ScanProgress)
       (r : Router) (info : MikrotikClient.SystemInfo) (nbrs : List OSPFNeighbor),
       (st.routers.map Router.id).Nodup →
       MikrotikClient.testConnection env ip = .ok true →
       MikrotikClient.getSystemInfo env ip = .ok info →
       MikrotikClient.getOSPFNeighbors env ip = .ok nbrs →
       getRouterByIp st ip = some r →
       ((applyScanUpdate ⟨"online", info.identity, info.version, info.model, nbrs, now⟩ r).id
          = r.id
        ∧ scanIps env now total (ip :: rest) i st found evs
          = scanIps env now total rest (i + 1)
              { st with routers := st.routers.map (fun x =>
                  if x.id == r.id
                  then applyScanUpdate
                    ⟨"online", info.identity, info.version, info.model, nbrs, now⟩ r
                  else x) }
              (found ++ [applyScanUpdate
                  ⟨"online", info.identity, info.version, info.model, nbrs, now⟩ r])
              (evs ++ [⟨((i + 1) * 100) / total, "scanning", found.length,
                       some ip, none, none⟩])
        ∧ (st.routers.map (fun x =>
              if x.id == r.id
              then applyScanUpdate
                ⟨"online", info.identity, info.version, info.model, nbrs, now⟩ r
              else x)).map Router.ip = st.routers.map Router.ip
        ∧ (st.routers.map (fun x =>
              if x.id == r.id
              then applyScanUpdate
                ⟨"online", info.identity, info.version, info.model, nbrs, now⟩ r
              else x)).length = st.routers.length))
    ∧ (∀ (env : MtEnv) (now : Nat) (enumResult : Except String (List String))
         (st : StorageState), storeWF st → storeWF (scanSubnet env now enumResult st).1)
    ∧ (∀ (reqs : List (MtEnv × Nat × Except String (List String))) (st : StorageState),
        storeWF st → ((scanSequence reqs st).routers.map Router.ip).Nodup) := by
  refine ⟨?_, ?_, ?_⟩
  · intro env now total ip rest i st found evs r info nbrs hnd h1 h2 h3 h4
    have hmem : r ∈ st.routers := List.mem_of_find?_eq_some h4
    have hfind : st.routers.find? (fun x => x.id == r.id) = some r :=
      find?_id_of_mem hmem hnd
    exact ⟨rfl,
           scanIps_cons_update env now total ip rest i st found evs info nbrs r
             h1 h2 h3 h4 hfind,
           map_ip_replace _ hmem hnd,
           by simp⟩
  · intro env now enumResult st hwf
    exact scanSubnet_storeWF env now enumResult st hwf
  · intro reqs
    induction reqs with
    | nil =>
      intro st hwf
      exact hwf.2.1
    | cons req reqs ih =>
      intro st hwf
      have hstep : scanSequence (req :: reqs) st
          = scanSequence reqs (scanSubnet req.1 req.2.1 req.2.2 st).1 := by
        simp [scanSequence, List.foldl_cons]
      rw [hstep]
      exact ih _ (scanSubnet_storeWF req.1 req.2.1 req.2.2 st hwf)

/-- Witness for C8 at a store already holding a device for 10.0.0.1. -/
theorem rescan_updates_in_place_witness :
    ((applyScanUpdate ⟨"online", some "router-one", some "7.11", some "CCR", [], 9⟩
        wRouter).id = wRouter.id
      ∧ scanIps upEnv 9 1 ["10.0.0.1"] 0 wSt2 [] []
        = scanIps upEnv 9 1 [] (0 + 1)
            { wSt2 with routers := wSt2.routers.map (fun x =>
                if x.id == wRouter.id
                then applyScanUpdate
                  ⟨"online", some "router-one", some "7.11", some "CCR", [], 9⟩ wRouter
                else x) }
            ([] ++ [applyScanUpdate
                ⟨"online", some "router-one", some "7.11", some "CCR", [], 9⟩ wRouter])
            ([] ++ [⟨100, "scanning", 0, some "10.0.0.1", none, none⟩])
      ∧ (wSt2.routers.map (fun x =>
            if x.id == wRouter.id
            then applyScanUpdate
              ⟨"online", some "router-one", some "7.11", some "CCR", [], 9⟩ wRouter
            else x)).map Router.ip = wSt2.routers.map Router.ip
      ∧ (wSt2.routers.map (fun x =>
            if x.id == wRouter.id
            then applyScanUpdate
              ⟨"online", some "router-one", some "7.11", some "CCR", [], 9⟩ wRouter
            else x)).length = wSt2.routers.length)
    ∧ storeWF (scanSubnet upEnv 9 (.ok ["10.0.0.1"]) wSt2).1
    ∧ ((scanSequence [(upEnv, 9, .ok ["10.0.0.1"])] wSt2).routers.map Router.ip).Nodup := by
  have hwf : storeWF wSt2 := by
    refine ⟨by decide, by decide, ?_⟩
    intro r hr k hk hcon
    simp only [wSt2, List.mem_singleton] at hr
    rw [hr] at hcon
    have h0 : wRouter.id = freshId 0 := by decide
    have hk1 : 1 ≤ k := hk
    exact absurd (freshId_inj (h0.symm.trans hcon)) (by omega)
  exact ⟨rescan_updates_in_place.1 upEnv 9 1 "10.0.0.1" [] 0 wSt2 [] [] wRouter
           ⟨some "router-one", some "7.11", some "CCR"⟩ [] (by decide) rfl rfl rfl rfl,
         rescan_updates_in_place.2.1 upEnv 9 (.ok ["10.0.0.1"]) wSt2 hwf,
         rescan_updates_in_place.2.2 [(upEnv, 9, .ok ["10.0.0.1"])] wSt2 hwf⟩

/-- Claim C7 is false on the code: a syntactically well-formed subnet whose
enumeration is too large passes the request schema, so the handler creates
the ScanJob record first; the SubnetTooLarge failure is detected only in
the background task and recorded on that job, whose record therefore
exists with status error. -/
theorem scan_job_created_for_oversized_subnet :
    subnetRegexValid "10.0.0.0/21" = true
    ∧ (List.replicate 2048 "10.0.0.1").length > 1024
    ∧ ((postScanHandler offlineEnv 0 (fun _ => .ok (List.replicate 2048 "10.0.0.1"))
         ⟨[], [], 0⟩ ⟨"10.0.0.0/21", "pending"⟩).1).scans.length = 1
    ∧ scanStatus (postScanHandler offlineEnv 0 (fun _ => .ok (List.replicate 2048 "10.0.0.1"))
         ⟨[], [], 0⟩ ⟨"10.0.0.0/21", "pending"⟩).1 (freshId 0) = some "error" := by
  have hregex : subnetRegexValid "10.0.0.0/21" = true := by decide
  have hlen : (List.replicate 2048 "10.0.0.1").length > 1024 := by
    rw [List.length_replicate]
    omega
  have hrun := scanSubnet_too_large offlineEnv 0 (List.replicate 2048 "10.0.0.1")
      (updateScan (createScan ⟨[], [], 0⟩ 0 ⟨"10.0.0.0/21", "pending"⟩).2 (freshId 0)
        (fun s => { s with status := "scanning" })) hlen
  have hcid : (createScan (⟨[], [], 0⟩ : StorageState) 0
      ⟨"10.0.0.0/21", "pending"⟩).1.id = freshId 0 := rfl
  refine ⟨hregex, hlen, ?_, ?_⟩
  · simp only [postScanHandler, hregex, if_true, hcid]
    simp only [runScanBackground, hrun]
    rfl
  · simp only [postScanHandler, hregex, if_true, hcid]
    simp only [runScanBackground, hrun]
    rfl

/-- C7 (amended): only the request-schema regex is enforced synchronously
with no ScanJob created; a regex-valid subnet whose enumeration exceeds the
size bound does get a ScanJob, which the background task transitions to
error before probing any address (the router store is untouched and the
only events are the terminal error events). -/
theorem subnet_validation_placement :
    (∀ (env : MtEnv) (now : Nat) (enum : String → Except String (List String))
       (st : StorageState) (body : InsertScan),
       subnetRegexValid body.subnet = false →
       postScanHandler env now enum st body = (st, [], none))
    ∧ (∀ (env : MtEnv) (now : Nat) (enum : String → Except String (List String))
         (st : StorageState) (body : InsertScan) (ips : List String),
        subnetRegexValid body.subnet = true →
        enum body.subnet = .ok ips →
        ips.length > 1024 →
        (∀ s ∈ st.scans, s.id ≠ freshId st.nextId) →
        (postScanHandler env now enum st body).1.routers = st.routers
        ∧ (postScanHandler env now enum st body).1.scans.length = st.scans.length + 1
        ∧ scanStatus (postScanHandler env now enum st body).1 (freshId st.nextId)
            = some "error"
        ∧ (postScanHandler env now enum st body).2.1
            = [⟨0, "error", 0, none,
                some (ScanError.subnetTooLarge ips.length).message, none⟩,
               ⟨0, "error", 0, none,
                some (ScanError.subnetTooLarge ips.length).message, none⟩]) := by
  constructor
  · intro env now enum st body hregex
    simp only [postScanHandler, hregex, Bool.false_eq_true, if_false]
  · intro env now enum st body ips hregex henum hlen hfresh
    have hcid : (createScan st now body).1.id = freshId st.nextId := rfl
    have hcscans : (createScan st now body).2.scans
        = st.scans ++ [(createScan st now body).1] := rfl
    have hrun := scanSubnet_too_large env now ips
        (updateScan (createScan st now body).2 (freshId st.nextId)
          (fun s => { s with status := "scanning" })) hlen
    simp only [postScanHandler, hregex, if_true]
    rw [henum]
    simp only [hcid]
    simp only [runScanBackground, hrun]
    refine ⟨rfl, ?_, ?_, rfl⟩
    · simp [updateScan, createScan]
    · simp only [scanStatus, updateScan]
      rw [find?_scan_update (fun s => { s with status := "error", completedAt := some now }) (fun s => rfl) (freshId st.nextId)]
      rw [find?_scan_update (fun s => { s with status := "scanning" }) (fun s => rfl) (freshId st.nextId)]
      rw [hcscans, List.find?_append]
      have hnone : st.scans.find? (fun s => s.id == freshId st.nextId) = none := by
        apply List.find?_eq_none.mpr
        intro s hs
        simp [hfresh s hs]
      rw [hnone]
      rw [List.find?_cons_of_pos _ (by rw [hcid]; simp)]
      rfl

/-- Witness for the amended C7: a malformed subnet is rejected synchronously
with no record, an oversized one creates a job that errors without probing. -/
theorem subnet_validation_placement_witness :
    (postScanHandler offlineEnv 0 (fun _ => .ok []) ⟨[], [], 0⟩ ⟨"not-a-subnet", "pending"⟩
        = (⟨[], [], 0⟩, [], none))
    ∧ ((postScanHandler offlineEnv 0 (fun _ => .ok (List.replicate 2048 "10.0.0.1"))
          ⟨[], [], 0⟩ ⟨"10.0.0.0/21", "pending"⟩).1.routers = []
      ∧ (postScanHandler offlineEnv 0 (fun _ => .ok (List.replicate 2048 "10.0.0.1"))
          ⟨[], [], 0⟩ ⟨"10.0.0.0/21", "pending"⟩).1.scans.length = 1
      ∧ scanStatus (postScanHandler offlineEnv 0
          (fun _ => .ok (List.replicate 2048 "10.0.0.1"))
          ⟨[], [], 0⟩ ⟨"10.0.0.0/21", "pending"⟩).1 (freshId 0) = some "error"
      ∧ (postScanHandler offlineEnv 0 (fun _ => .ok (List.replicate 2048 "10.0.0.1"))
          ⟨[], [], 0⟩ ⟨"10.0.0.0/21", "pending"⟩).2.1
        = [⟨0, "error", 0, none,
            some (ScanError.subnetTooLarge (List.replicate 2048 "10.0.0.1").length).message,
            none⟩,
           ⟨0, "error", 0, none,
            some (ScanError.subnetTooLarge (List.replicate 2048 "10.0.0.1").length).message,
            none⟩]) :=
  ⟨subnet_validation_placement.1 offlineEnv 0 (fun _ => .ok []) ⟨[], [], 0⟩
     ⟨"not-a-subnet", "pending"⟩ (by decide),
   subnet_validation_placement.2 offlineEnv 0 (fun _ => .ok (List.replicate 2048 "10.0.0.1"))
     ⟨[], [], 0⟩ ⟨"10.0.0.0/21", "pending"⟩ (List.replicate 2048 "10.0.0.1")
     (by decide) rfl (by rw [List.length_replicate]; omega) (by intro s hs; simp at hs)⟩
